import Mathlib

/-!
Verification of the assessment-analytics and course-recommendation engine.

The definitions below are shallow embeddings of the repository's Python
source (agents 1-5 and the pipeline driver).  Pandas data frames are
modelled as lists of row structures, Python dicts as association lists,
floats as rationals, and fallible external calls (LLM generation, vector
search, JSON parsing from the standard library) as explicit `Option` /
`Except` valued parameters.  Each embedded function keeps the source
function's name and control flow.
-/

/-! ## Data model (config.py dataclasses) -/

/-- Course record (config.py `Course`): id, title, description, link and an
open metadata bag, here an association list of string fields. -/
structure Course where
  id : String
  lesson_title : String
  description : String
  link : String
  metadata : List (String × String) := []
deriving DecidableEq, Repr

/-- Weakness record (config.py `Weakness`). -/
structure Weakness where
  id : String
  text : String
  importance : ℚ := 1
  metadata : List (String × String) := []
deriving DecidableEq, Repr

/-- Scored association between a course and a weakness
(config.py `CourseScore`); the Python float score is modelled as a
rational. -/
structure CourseScore where
  course : Course
  weakness_id : String
  score : ℚ
  reason : String
deriving DecidableEq, Repr

/-! ## Agent 4: course selection (agent4_course_recommendation.py) -/

/-- Helper for `dedupe_by_course`: keeps the first occurrence of every
course id, skipping any course whose id is already in `seen`. -/
def dedupe_aux (seen : List String) : List CourseScore → List CourseScore
  | [] => []
  | rec :: rest =>
    if rec.course.id ∈ seen then dedupe_aux seen rest
    else rec :: dedupe_aux (rec.course.id :: seen) rest

/-- Embedding of `_dedupe_by_course`: first-occurrence deduplication of a
list of candidates by course id. -/
def dedupe_by_course (recs : List CourseScore) : List CourseScore :=
  dedupe_aux [] recs

/-- One step of building the `top_per_weakness` dict: Python dict update
keyed by weakness id, keeping the higher-scoring candidate (strict `>`, so
the first seen wins ties) and preserving key insertion order. -/
def upd_top (m : List (String × CourseScore)) (rec : CourseScore) :
    List (String × CourseScore) :=
  match m with
  | [] => [(rec.weakness_id, rec)]
  | (k, v) :: rest =>
    if k = rec.weakness_id then
      if v.score < rec.score then (k, rec) :: rest else (k, v) :: rest
    else (k, v) :: upd_top rest rec

/-- The `top_per_weakness` dict of `_select_final_courses`, as an
insertion-ordered association list from weakness id to its best-scoring
candidate. -/
def top_per_weakness (recs : List CourseScore) : List (String × CourseScore) :=
  recs.foldl upd_top []

/-- Python's stable `list.sort(key=score, reverse=True)`: a stable sort
descending by score. -/
def sort_by_score_desc (l : List CourseScore) : List CourseScore :=
  l.insertionSort (fun a b => b.score ≤ a.score)

/-- Embedding of `_select_final_courses`: take the per-weakness top picks,
dedupe them by course id and sort by score; if fewer than `max_total`
remain, fill from the not-yet-selected candidates (deduped by course id,
sorted by score). -/
def select_final_courses (all_recommendations : List CourseScore)
    (max_total : Nat) : List CourseScore :=
  if all_recommendations = [] then []
  else
    let selected :=
      sort_by_score_desc
        (dedupe_by_course ((top_per_weakness all_recommendations).map Prod.snd))
    if max_total ≤ selected.length then selected.take max_total
    else
      let remaining_slots := max_total - selected.length
      let remaining :=
        sort_by_score_desc
          (dedupe_by_course
            (all_recommendations.filter (fun rec => rec ∉ selected)))
      selected ++ remaining.take remaining_slots

/-- Number of distinct weakness ids that have at least one candidate. -/
def distinct_weakness_count (recs : List CourseScore) : Nat :=
  ((recs.map (fun r => r.weakness_id)).dedup).length

/-! ### Lemmas about the course-selection algorithm -/

theorem mem_of_mem_dedupe_aux {seen : List String} {l : List CourseScore}
    {x : CourseScore} (h : x ∈ dedupe_aux seen l) : x ∈ l := by
  induction l generalizing seen with
  | nil => simp [dedupe_aux] at h
  | cons rec rest ih =>
    simp only [dedupe_aux] at h
    split at h
    · exact List.mem_cons_of_mem _ (ih h)
    · rcases List.mem_cons.1 h with h | h
      · exact h ▸ List.mem_cons_self _ _
      · exact List.mem_cons_of_mem _ (ih h)

theorem dedupe_aux_not_mem_seen {seen : List String} {l : List CourseScore}
    {x : CourseScore} (h : x ∈ dedupe_aux seen l) : x.course.id ∉ seen := by
  induction l generalizing seen with
  | nil => simp [dedupe_aux] at h
  | cons rec rest ih =>
    simp only [dedupe_aux] at h
    split at h
    · exact ih h
    · rcases List.mem_cons.1 h with h | h
      · subst h; assumption
      · intro hmem
        exact ih h (List.mem_cons_of_mem _ hmem)

theorem dedupe_aux_cids_nodup (seen : List String) (l : List CourseScore) :
    ((dedupe_aux seen l).map (fun r => r.course.id)).Nodup := by
  induction l generalizing seen with
  | nil => simp [dedupe_aux]
  | cons rec rest ih =>
    simp only [dedupe_aux]
    split
    · exact ih seen
    · refine List.nodup_cons.2 ⟨?_, ih _⟩
      intro hmem
      rcases List.mem_map.1 hmem with ⟨y, hy, hcid⟩
      exact dedupe_aux_not_mem_seen hy (hcid ▸ List.mem_cons_self _ _)

theorem dedupe_aux_eq_self {seen : List String} {l : List CourseScore}
    (hnd : (l.map (fun r => r.course.id)).Nodup)
    (hseen : ∀ x ∈ l, x.course.id ∉ seen) : dedupe_aux seen l = l := by
  induction l generalizing seen with
  | nil => rfl
  | cons rec rest ih =>
    simp only [List.map_cons, List.nodup_cons] at hnd
    simp only [dedupe_aux, if_neg (hseen rec (List.mem_cons_self _ _))]
    congr 1
    refine ih hnd.2 ?_
    intro x hx
    simp only [List.mem_cons, not_or]
    refine ⟨?_, hseen x (List.mem_cons_of_mem _ hx)⟩
    intro hcid
    exact hnd.1 (hcid ▸ List.mem_map_of_mem _ hx)

theorem mem_upd_top {m : List (String × CourseScore)} {rec : CourseScore}
    {kv : String × CourseScore} (h : kv ∈ upd_top m rec) :
    kv = (rec.weakness_id, rec) ∨ kv ∈ m := by
  induction m with
  | nil => simpa [upd_top] using h
  | cons p rest ih =>
    obtain ⟨k, v⟩ := p
    simp only [upd_top] at h
    split at h
    · rename_i hk
      split at h
      · rcases List.mem_cons.1 h with h | h
        · exact Or.inl (by simp [h, hk])
        · exact Or.inr (List.mem_cons_of_mem _ h)
      · exact Or.inr h
    · rcases List.mem_cons.1 h with h | h
      · exact Or.inr (h ▸ List.mem_cons_self _ _)
      · rcases ih h with h | h
        · exact Or.inl h
        · exact Or.inr (List.mem_cons_of_mem _ h)

theorem mem_keys_upd_top {m : List (String × CourseScore)} {rec : CourseScore}
    {w : String} :
    w ∈ (upd_top m rec).map Prod.fst ↔
      w ∈ m.map Prod.fst ∨ w = rec.weakness_id := by
  induction m with
  | nil => simp [upd_top]
  | cons p rest ih =>
    obtain ⟨k, v⟩ := p
    simp only [upd_top]
    split
    · rename_i hk
      split <;> subst hk <;> simp [or_comm, or_left_comm, eq_comm]
    · simp only [List.map_cons, List.mem_cons, ih, or_assoc]

theorem keys_upd_top_nodup {m : List (String × CourseScore)} {rec : CourseScore}
    (h : (m.map Prod.fst).Nodup) : ((upd_top m rec).map Prod.fst).Nodup := by
  induction m with
  | nil => simp [upd_top]
  | cons p rest ih =>
    obtain ⟨k, v⟩ := p
    simp only [List.map_cons, List.nodup_cons] at h
    simp only [upd_top]
    split
    · split <;> simpa [List.nodup_cons] using h
    · rename_i hk
      refine List.nodup_cons.2 ⟨?_, ih h.2⟩
      rw [mem_keys_upd_top]
      rintro (hmem | hmem)
      · exact h.1 hmem
      · exact hk hmem

theorem mem_foldl_upd_top {l : List CourseScore}
    {m : List (String × CourseScore)} {kv : String × CourseScore}
    (h : kv ∈ l.foldl upd_top m) :
    (∃ r ∈ l, kv = (r.weakness_id, r)) ∨ kv ∈ m := by
  induction l generalizing m with
  | nil => exact Or.inr h
  | cons r rest ih =>
    rcases ih h with ⟨r', hr', hkv⟩ | h
    · exact Or.inl ⟨r', List.mem_cons_of_mem _ hr', hkv⟩
    · rcases mem_upd_top h with h | h
      · exact Or.inl ⟨r, List.mem_cons_self _ _, h⟩
      · exact Or.inr h

theorem mem_keys_foldl_upd_top {l : List CourseScore}
    {m : List (String × CourseScore)} {w : String} :
    w ∈ (l.foldl upd_top m).map Prod.fst ↔
      w ∈ m.map Prod.fst ∨ w ∈ l.map (fun r => r.weakness_id) := by
  induction l generalizing m with
  | nil => simp
  | cons r rest ih =>
    simp only [List.foldl_cons, ih, mem_keys_upd_top, List.map_cons,
      List.mem_cons]
    tauto

theorem keys_foldl_upd_top_nodup {l : List CourseScore}
    {m : List (String × CourseScore)} (h : (m.map Prod.fst).Nodup) :
    ((l.foldl upd_top m).map Prod.fst).Nodup := by
  induction l generalizing m with
  | nil => exact h
  | cons r rest ih => exact ih (keys_upd_top_nodup h)

theorem mem_top_per_weakness {all : List CourseScore}
    {kv : String × CourseScore} (h : kv ∈ top_per_weakness all) :
    kv.2 ∈ all ∧ kv.2.weakness_id = kv.1 := by
  rcases mem_foldl_upd_top h with ⟨r, hr, hkv⟩ | h
  · subst hkv; exact ⟨hr, rfl⟩
  · simp at h

theorem length_top_per_weakness (all : List CourseScore) :
    (top_per_weakness all).length = distinct_weakness_count all := by
  have hkeys : ((top_per_weakness all).map Prod.fst).Nodup :=
    keys_foldl_upd_top_nodup (by simp)
  have hdedup : ((all.map (fun r => r.weakness_id)).dedup).Nodup :=
    List.nodup_dedup _
  have hperm : List.Perm ((top_per_weakness all).map Prod.fst)
      ((all.map (fun r => r.weakness_id)).dedup) := by
    rw [List.perm_ext_iff_of_nodup hkeys hdedup]
    intro w
    rw [List.mem_dedup]
    simpa using (mem_keys_foldl_upd_top (m := []) (l := all) (w := w))
  have := hperm.length_eq
  simpa [distinct_weakness_count] using this

theorem mem_sort_by_score_desc {l : List CourseScore} {x : CourseScore} :
    x ∈ sort_by_score_desc l ↔ x ∈ l :=
  (List.perm_insertionSort _ _).mem_iff

theorem cids_sort_nodup {l : List CourseScore}
    (h : (l.map (fun r => r.course.id)).Nodup) :
    ((sort_by_score_desc l).map (fun r => r.course.id)).Nodup :=
  (((List.perm_insertionSort _ l).map (fun r => r.course.id)).nodup_iff).2 h

theorem mem_selected_pool {all : List CourseScore} {x : CourseScore}
    (h : x ∈ sort_by_score_desc
      (dedupe_by_course ((top_per_weakness all).map Prod.snd))) : x ∈ all := by
  have h2 := mem_of_mem_dedupe_aux (mem_sort_by_score_desc.1 h)
  rcases List.mem_map.1 h2 with ⟨kv, hkv, rfl⟩
  exact (mem_top_per_weakness hkv).1

theorem length_select_final_courses (all : List CourseScore) (m : Nat) :
    (select_final_courses all m).length ≤ m := by
  simp only [select_final_courses]
  split
  · simp
  · split
    · simp only [List.length_take]
      exact Nat.min_le_left _ _
    · rename_i hlen
      simp only [List.length_append, List.length_take]
      omega

theorem mem_select_final_courses {all : List CourseScore} {m : Nat}
    {x : CourseScore} (h : x ∈ select_final_courses all m) : x ∈ all := by
  simp only [select_final_courses] at h
  split at h
  · simp at h
  · split at h
    · exact mem_selected_pool (List.mem_of_mem_take h)
    · rcases List.mem_append.1 h with h | h
      · exact mem_selected_pool h
      · have h2 := mem_sort_by_score_desc.1 (List.mem_of_mem_take h)
        exact List.mem_of_mem_filter (mem_of_mem_dedupe_aux h2)

theorem select_final_courses_cids_nodup {all : List CourseScore} {m : Nat}
    (H : ∀ r1 ∈ all, ∀ r2 ∈ all, r1.course.id = r2.course.id → r1 = r2) :
    ((select_final_courses all m).map (fun r => r.course.id)).Nodup := by
  simp only [select_final_courses]
  split
  · simp
  · have hsel : ((sort_by_score_desc
        (dedupe_by_course ((top_per_weakness all).map Prod.snd))).map
          (fun r => r.course.id)).Nodup :=
      cids_sort_nodup (dedupe_aux_cids_nodup _ _)
    split
    · rw [List.map_take]
      exact hsel.sublist (List.take_sublist _ _)
    · rw [List.map_append]
      refine List.nodup_append.2 ⟨hsel, ?_, ?_⟩
      · rw [List.map_take]
        exact (cids_sort_nodup (dedupe_aux_cids_nodup _ _)).sublist
          (List.take_sublist _ _)
      · intro a ha hb
        rcases List.mem_map.1 ha with ⟨r1, hr1, rfl⟩
        rcases List.mem_map.1 hb with ⟨r2, hr2, hcid⟩
        have hr2' := mem_sort_by_score_desc.1 (List.mem_of_mem_take hr2)
        have hr2f := mem_of_mem_dedupe_aux hr2'
        have hr2all : r2 ∈ all := List.mem_of_mem_filter hr2f
        have hr2notsel : r2 ∉ sort_by_score_desc
            (dedupe_by_course ((top_per_weakness all).map Prod.snd)) := by
          have := List.of_mem_filter hr2f
          simpa using this
        have := H r1 (mem_selected_pool hr1) r2 hr2all hcid.symm
        exact hr2notsel (this ▸ hr1)

theorem select_final_courses_cover {all : List CourseScore} {m : Nat}
    (Htop : (((top_per_weakness all).map Prod.snd).map
      (fun r => r.course.id)).Nodup)
    (Hcnt : distinct_weakness_count all ≤ m)
    {r : CourseScore} (hr : r ∈ all) :
    ∃ out ∈ select_final_courses all m, out.weakness_id = r.weakness_id := by
  have hne : all ≠ [] := by rintro rfl; simp at hr
  have hdedupe : dedupe_by_course ((top_per_weakness all).map Prod.snd) =
      (top_per_weakness all).map Prod.snd :=
    dedupe_aux_eq_self Htop (by simp)
  have hwid : r.weakness_id ∈ (top_per_weakness all).map Prod.fst := by
    refine (mem_keys_foldl_upd_top (m := [])).2 (Or.inr ?_)
    exact List.mem_map_of_mem _ hr
  rcases List.mem_map.1 hwid with ⟨kv, hkv, hfst⟩
  have hv : kv.2 ∈ (top_per_weakness all).map Prod.snd :=
    List.mem_map_of_mem _ hkv
  have hvwid : kv.2.weakness_id = r.weakness_id :=
    (mem_top_per_weakness hkv).2.trans hfst
  have hvsel : kv.2 ∈ sort_by_score_desc
      (dedupe_by_course ((top_per_weakness all).map Prod.snd)) := by
    rw [hdedupe] at *
    exact mem_sort_by_score_desc.2 hv
  have hlen : (sort_by_score_desc
      (dedupe_by_course ((top_per_weakness all).map Prod.snd))).length ≤ m := by
    rw [hdedupe]
    have h1 : (sort_by_score_desc ((top_per_weakness all).map Prod.snd)).length
        = (top_per_weakness all).length := by
      simp only [sort_by_score_desc]
      rw [(List.perm_insertionSort _ _).length_eq, List.length_map]
    rw [h1, length_top_per_weakness]
    exact Hcnt
  simp only [select_final_courses, if_neg hne]
  split
  · rename_i hge
    refine ⟨kv.2, ?_, hvwid⟩
    rw [List.take_of_length_le hlen]
    exact hvsel
  · exact ⟨kv.2, List.mem_append_left _ hvsel, hvwid⟩

/-! ## Agent 4: online recommendation path (`recommend_courses_for_student`) -/

/-- One nearest-neighbour result from the deployed vector index: datapoint
id and distance. -/
structure Neighbor where
  id : String
  distance : ℚ
deriving DecidableEq, Repr

/-- One raw weakness dict as produced by agent 3 and consumed by
`_parse_weaknesses`. -/
structure WeaknessRaw where
  id : Option String := none
  weakness : String
  importance : ℚ := 1
  metadata : List (String × String) := []
deriving DecidableEq, Repr

/-- Python `metadata.get(key)` over a dict modelled as an association
list. -/
def get_field (metadata : List (String × String)) (key : String) :
    Option String :=
  (metadata.find? (fun p => p.1 == key)).map Prod.snd

/-- Python `value or default` for optional strings: `None` and the empty
string are falsy. -/
def py_or (v : Option String) (d : String) : String :=
  match v with
  | none => d
  | some s => if s = "" then d else s

/-- Embedding of `_parse_weaknesses`: a missing or falsy id is replaced by
a freshly generated one (`uuid.uuid4`, modelled by `gen_id` on the list
position). -/
def parse_weaknesses (weaknesses_raw : List WeaknessRaw)
    (gen_id : Nat → String) : List Weakness :=
  weaknesses_raw.enum.map (fun p =>
    { id := match p.2.id with
        | some s => if s = "" then gen_id p.1 else s
        | none => gen_id p.1
      text := p.2.weakness
      importance := p.2.importance
      metadata := p.2.metadata })

/-- Result shape of `recommend_courses_for_student`. -/
structure Agent4Output where
  weaknesses : List Weakness
  recommendations : List CourseScore
deriving DecidableEq, Repr

/-- Embedding of `recommend_courses_for_student`.  The external collaborators
are parameters: `gen_id` models `uuid.uuid4`, `course_lookup` the course
CSV keyed by id, `query_vertex_index` the deployed Matching Engine
endpoint, and `llm_rerank` the optional LLM re-ranking call (returning `[]`
on failure).  Each neighbour becomes a `CourseScore` with
`score = 1 / (1 + distance)`; the final list is
`_select_final_courses(..., max_total=5)`. -/
def recommend_courses_for_student (weaknesses_raw : List WeaknessRaw)
    (gen_id : Nat → String)
    (course_lookup : List (String × List (String × String)))
    (query_vertex_index : String → Nat → List Neighbor)
    (max_courses_pr_weakness : Nat) (rerank_enabled : Bool)
    (llm_rerank : List Weakness → List CourseScore → List CourseScore) :
    Agent4Output :=
  let weaknesses := parse_weaknesses weaknesses_raw gen_id
  let all_recommendations := weaknesses.flatMap (fun w =>
    (query_vertex_index w.text max_courses_pr_weakness).map (fun nb =>
      let metadata := ((course_lookup.find? (fun p => p.1 == nb.id)).map
        Prod.snd).getD []
      let course : Course :=
        { id := nb.id
          lesson_title := py_or (get_field metadata "lesson_title")
            "Untitled course"
          description := py_or (get_field metadata "description") ""
          link := py_or (get_field metadata "link")
            (py_or (get_field metadata "course_url") "")
          metadata := metadata }
      { course := course
        weakness_id := w.id
        score := 1 / (1 + nb.distance)
        reason := "Retrieved by semantic match to weakness '" ++
          w.text.take 80 ++ "...'." }))
  let selected := select_final_courses all_recommendations 5
  let selected :=
    if rerank_enabled then
      let reranked := llm_rerank weaknesses selected
      if reranked = [] then selected else reranked
    else selected
  { weaknesses := weaknesses, recommendations := selected }

/-! ### Claim C1 -/

/-- Course used in the C1 counterexample. -/
def courseA : Course := ⟨"A", "Course A", "", "", []⟩

/-- Course used in the C1 counterexample. -/
def courseB : Course := ⟨"B", "Course B", "", "", []⟩

/-- C1 counterexample input: both weaknesses' top picks are course `A`
(scores 90 and 80), and `w1` also has course `B` (score 85). -/
def exC1 : List CourseScore :=
  [⟨courseA, "w1", 90, "match w1"⟩,
   ⟨courseB, "w1", 85, "match w1"⟩,
   ⟨courseA, "w2", 80, "match w2"⟩]

/-- C1 counterexample: with `max_total = 2 ≥ 2 = distinct_weakness_count`,
weakness `w2` has a candidate but the selection
`[A → w1, B → w1]` contains no entry referencing it: after the per-course
dedupe drops `w2`'s top pick (course `A`, already taken by `w1`), the fill
step ranks by score only and never restores `w2`'s coverage. -/
theorem C1_counterexample :
    distinct_weakness_count exC1 ≤ 2 ∧
    ("w2" ∈ exC1.map (fun r => r.weakness_id)) ∧
    ¬ ∃ out ∈ select_final_courses exC1 2, out.weakness_id = "w2" := by
  decide

/-- C1 (amended).  For every candidate list and every `max_total`:
(1) the output of `_select_final_courses` has length at most `max_total`;
(2) if candidates sharing a course id are identical records, no course id
appears twice in the output;
(3) if, additionally, the top picks of distinct weakness ids reference
pairwise distinct course ids and
`max_total ≥ distinct_weakness_count`, then every weakness id with at
least one candidate is referenced by some output entry.
(The unconditional no-duplicate and coverage guarantees stated in the
specification fail, see the counterexample.) -/
theorem C1_select_final_courses_spec (all : List CourseScore)
    (max_total : Nat) :
    (select_final_courses all max_total).length ≤ max_total ∧
    ((∀ r1 ∈ all, ∀ r2 ∈ all, r1.course.id = r2.course.id → r1 = r2) →
      ((select_final_courses all max_total).map
        (fun r => r.course.id)).Nodup) ∧
    ((((top_per_weakness all).map Prod.snd).map
        (fun r => r.course.id)).Nodup →
      distinct_weakness_count all ≤ max_total →
      ∀ r ∈ all, ∃ out ∈ select_final_courses all max_total,
        out.weakness_id = r.weakness_id) :=
  ⟨length_select_final_courses all max_total,
   fun H => select_final_courses_cids_nodup H,
   fun Htop Hcnt _r hr => select_final_courses_cover Htop Hcnt hr⟩

/-- Input for the C1 witness: two weaknesses whose top picks are distinct
courses. -/
def exC1W : List CourseScore :=
  [⟨courseA, "w1", 90, "match w1"⟩,
   ⟨courseB, "w2", 80, "match w2"⟩]

/-- Witness for the amended C1 at a concrete input. -/
theorem C1_select_final_courses_spec_witness :
    (select_final_courses exC1W 2).length ≤ 2 ∧
    ((select_final_courses exC1W 2).map (fun r => r.course.id)).Nodup ∧
    (∃ out ∈ select_final_courses exC1W 2, out.weakness_id = "w2") := by
  obtain ⟨h1, h2, h3⟩ := C1_select_final_courses_spec exC1W 2
  refine ⟨h1, h2 (by decide), ?_⟩
  exact h3 (by decide) (by decide) ⟨courseB, "w2", 80, "match w2"⟩ (by decide)

/-! ### Claim C10 -/

/-- C10: with re-ranking disabled, `recommend_courses_for_student` returns
at most 5 recommendations, for every weakness list, every id generator,
every course catalog, every sequence of neighbour results and every
`max_courses_pr_weakness` — the final-selection cap is the hard-coded
`max_total=5`. -/
theorem C10_recommendations_at_most_five (weaknesses_raw : List WeaknessRaw)
    (gen_id : Nat → String)
    (course_lookup : List (String × List (String × String)))
    (query_vertex_index : String → Nat → List Neighbor)
    (max_courses_pr_weakness : Nat)
    (llm_rerank : List Weakness → List CourseScore → List CourseScore) :
    (recommend_courses_for_student weaknesses_raw gen_id course_lookup
      query_vertex_index max_courses_pr_weakness false
      llm_rerank).recommendations.length ≤ 5 := by
  simp only [recommend_courses_for_student, if_neg Bool.false_ne_true]
  exact length_select_final_courses _ 5

/-! ## Agent 2: incorrect questions (agent2_incorrect_questions.py)

Pandas data frames are modelled as lists of typed rows; `merge(..., how="left")`
becomes a flat map that pairs each left row with its matches (or a single
unmatched pairing), and `groupby` becomes filtering by key. -/

/-- One row of `ExamQuestionResult.csv` (`df_tq`). -/
structure QuestionResultRow where
  id : String
  examResultId : String
  questionId : String
deriving DecidableEq, Repr

/-- One row of `ExamAnswerResult.csv` (`df_ta`). -/
structure AnswerResultRow where
  examResultQuestionId : String
  answerValue : String
  isCorrect : Bool
deriving DecidableEq, Repr

/-- One row of `Question.csv` (`df_q`); missing CSV cells are `none`. -/
structure QuestionBankRow where
  id : String
  domain : Option String := none
  question : Option String := none
  explanation : Option String := none
  difficulty : Option String := none
  score : Option ℚ := none
deriving DecidableEq, Repr

/-- One row of `Answer.csv` (`df_a`). -/
structure AnswerBankRow where
  questionId : String
  value : String
  isCorrect : Bool
deriving DecidableEq, Repr

/-- The `df_ta[df_ta["examResultQuestionId"].isin(df_tq_subset["id"])]`
filter. -/
def ta_subset_for (tq_subset : List QuestionResultRow)
    (df_ta : List AnswerResultRow) : List AnswerResultRow :=
  df_ta.filter (fun r => tq_subset.any (fun t => t.id == r.examResultQuestionId))

/-- The grouped `any_incorrect` flag for one question-result id: `none` when
the id has no answer rows (a missing group, pandas `NaN` after the left
merge), otherwise whether some row of the group is marked incorrect. -/
def any_incorrect_for (ta : List AnswerResultRow) (tq_id : String) :
    Option Bool :=
  let grp := ta.filter (fun r => r.examResultQuestionId == tq_id)
  if grp.isEmpty then none else some (grp.any (fun r => !r.isCorrect))

/-- The left merge of question-result rows with `df_q[["id","domain"]]`
followed by `fillna("Unknown")` on the domain column: every left row is
paired with the domain of each matching question-bank row, or with
`"Unknown"` when unmatched or when the bank row has no domain. -/
def join_domains (df_q : List QuestionBankRow)
    (tq_subset : List QuestionResultRow) :
    List (QuestionResultRow × String) :=
  tq_subset.flatMap (fun t =>
    let ms := df_q.filter (fun q => q.id == t.questionId)
    if ms.isEmpty then [(t, "Unknown")]
    else ms.map (fun q => (t, q.domain.getD "Unknown")))

/-- First-occurrence deduplication of group keys (the set of domains of a
`groupby("domain")`; pandas sorts the keys, which permutes rows but is
irrelevant to every property proved below). -/
def first_dedup_aux (seen : List String) : List String → List String
  | [] => []
  | x :: xs =>
    if x ∈ seen then first_dedup_aux seen xs
    else x :: first_dedup_aux (x :: seen) xs

/-- Group keys of the domain groupby in first-occurrence order. -/
def first_dedup (l : List String) : List String :=
  first_dedup_aux [] l

/-- One per-domain row of `_build_domain_performance`. -/
structure DomainRow where
  domain : String
  total : Nat
  correct : Nat
  incorrect : Nat
  accuracy : Option ℚ
deriving DecidableEq, Repr

/-- The overall roll-up of `_build_domain_performance`. -/
structure OverallRow where
  total : Nat
  correct : Nat
  incorrect : Nat
  accuracy : Option ℚ
deriving DecidableEq, Repr

/-- Return value of `_build_domain_performance` when it aggregates. -/
structure DomainPerformance where
  domains : List DomainRow
  overall : OverallRow
deriving DecidableEq, Repr

/-- The per-row `is_correct` column:
`~(df_join["any_incorrect"].fillna(True))`. -/
def is_correct_row (ta_subset : List AnswerResultRow)
    (t : QuestionResultRow) : Bool :=
  !((any_incorrect_for ta_subset t.id).getD true)

/-- One iteration of the domain loop of `_build_domain_performance`: the
group of domain `d`, its length, correct count (`is_correct` sum),
incorrect count (`total - correct`) and accuracy (`correct / total` if
`total` else `None`). -/
def domain_row_for (joined : List (QuestionResultRow × String))
    (ta_subset : List AnswerResultRow) (d : String) : DomainRow :=
  { domain := d
    total := (joined.filter (fun p => p.2 == d)).length
    correct := ((joined.filter (fun p => p.2 == d)).filter
      (fun p => is_correct_row ta_subset p.1)).length
    incorrect := (joined.filter (fun p => p.2 == d)).length -
      ((joined.filter (fun p => p.2 == d)).filter
        (fun p => is_correct_row ta_subset p.1)).length
    accuracy := if (joined.filter (fun p => p.2 == d)).length = 0 then none
      else some ((((joined.filter (fun p => p.2 == d)).filter
          (fun p => is_correct_row ta_subset p.1)).length : ℚ) /
        ((joined.filter (fun p => p.2 == d)).length : ℚ)) }

/-- The overall roll-up of `_build_domain_performance`: sums of the
per-domain totals and correct counts, and `total_correct / total_questions`
(`None` on zero). -/
def overall_row_for (domain_rows : List DomainRow) : OverallRow :=
  { total := (domain_rows.map (fun r => r.total)).sum
    correct := (domain_rows.map (fun r => r.correct)).sum
    incorrect := (domain_rows.map (fun r => r.total)).sum -
      (domain_rows.map (fun r => r.correct)).sum
    accuracy := if (domain_rows.map (fun r => r.total)).sum = 0 then none
      else some ((((domain_rows.map (fun r => r.correct)).sum : ℕ) : ℚ) /
        (((domain_rows.map (fun r => r.total)).sum : ℕ) : ℚ)) }

/-- Embedding of `_build_domain_performance`: per-domain totals, correct
and incorrect counts and accuracy (`correct / total`, `None` on an empty
total), plus the overall roll-up; `none` when the question subset or its
answer subset is empty. -/
def build_domain_performance (tq_subset : List QuestionResultRow)
    (df_ta : List AnswerResultRow) (df_q : List QuestionBankRow) :
    Option DomainPerformance :=
  if tq_subset.isEmpty then none
  else
    let ta_subset := ta_subset_for tq_subset df_ta
    if ta_subset.isEmpty then none
    else
      let joined := join_domains df_q tq_subset
      let domain_rows := (first_dedup (joined.map Prod.snd)).map
        (domain_row_for joined ta_subset)
      some { domains := domain_rows, overall := overall_row_for domain_rows }

/-- The student's submitted values for one question-result id, in answer-row
order (the grouped `student_answers` list). -/
def student_answers_for (ta : List AnswerResultRow) (tq_id : String) :
    List String :=
  (ta.filter (fun r => r.examResultQuestionId == tq_id)).map
    (fun r => r.answerValue)

/-- The canonical correct values for a question-bank id
(`correct_lookup.get(qid, [])`). -/
def correct_answers_for (df_a : List AnswerBankRow) (qid : String) :
    List String :=
  ((df_a.filter (fun a => a.isCorrect)).filter
    (fun a => a.questionId == qid)).map (fun a => a.value)

/-- Every valid value for a question-bank id
(`all_answers_lookup.get(qid, [])`). -/
def all_answers_for (df_a : List AnswerBankRow) (qid : String) :
    List String :=
  (df_a.filter (fun a => a.questionId == qid)).map (fun a => a.value)

/-- One entry of `result["incorrect_questions"]`. -/
structure IncorrectCase where
  questionId : String
  testResultQuestionId : String
  questionText : Option String
  explanation : Option String
  studentAnswers : List String
  correctAnswers : List String
  allAnswers : List String
  difficulty : Option String
  score : Option ℚ
deriving DecidableEq, Repr

/-- Result shape of `get_incorrect_question_cases`. -/
structure Agent2Output where
  status : String
  incorrect_questions : List IncorrectCase
  total_questions_in_test : Nat
  total_incorrect_questions : Nat
  domain_performance_current : Option DomainPerformance
  domain_performance_history : Option DomainPerformance
  notes : List String
deriving DecidableEq, Repr

/-- Embedding of `get_incorrect_question_cases`.  `current_test_result_id`
is `agent1_output["current_test_result"]["id"]` (or `none` when agent 1
returned no current test), and `history_id` the history test-result id
when one is usable. -/
def get_incorrect_question_cases (current_test_result_id : Option String)
    (history_id : Option String) (df_q : List QuestionBankRow)
    (df_a : List AnswerBankRow) (df_tq : List QuestionResultRow)
    (df_ta : List AnswerResultRow) : Agent2Output :=
  match current_test_result_id with
  | none =>
    { status := "upstream_no_current_test"
      incorrect_questions := []
      total_questions_in_test := 0
      total_incorrect_questions := 0
      domain_performance_current := none
      domain_performance_history := none
      notes := ["Agent 1 did not return a current_test_result; skipping incorrect question extraction."] }
  | some current_id =>
    let df_tq_current := df_tq.filter (fun t => t.examResultId == current_id)
    if df_tq_current.isEmpty then
      { status := "no_question_results_for_test"
        incorrect_questions := []
        total_questions_in_test := 0
        total_incorrect_questions := 0
        domain_performance_current := none
        domain_performance_history := none
        notes := ["No test_question_result rows found for this TestResultId."] }
    else
      let df_ta_current := ta_subset_for df_tq_current df_ta
      if df_ta_current.isEmpty then
        { status := "no_answers_for_test"
          incorrect_questions := []
          total_questions_in_test := df_tq_current.length
          total_incorrect_questions := 0
          domain_performance_current := none
          domain_performance_history := none
          notes := ["No test_answer_result rows found for the current test_result (no answers logged)."] }
      else
        let dp_current := build_domain_performance df_tq_current df_ta df_q
        let dp_history := match history_id with
          | some h =>
            build_domain_performance
              (df_tq.filter (fun t => t.examResultId == h)) df_ta df_q
          | none => none
        let df_incorrect := df_tq_current.filter
          (fun t => (any_incorrect_for df_ta_current t.id).getD false)
        if df_incorrect.isEmpty then
          { status := "no_incorrect_answers"
            incorrect_questions := []
            total_questions_in_test := df_tq_current.length
            total_incorrect_questions := 0
            domain_performance_current := dp_current
            domain_performance_history := dp_history
            notes := ["All questions in this test were answered correctly; no incorrect questions to analyze."] }
        else
          let incorrect_questions := df_incorrect.flatMap (fun t =>
            let ms := df_q.filter (fun q => q.id == t.questionId)
            let mk_case := fun (qrow : Option QuestionBankRow) =>
              { questionId := t.questionId
                testResultQuestionId := t.id
                questionText := qrow.bind (fun q => q.question)
                explanation := qrow.bind (fun q => q.explanation)
                studentAnswers := student_answers_for df_ta_current t.id
                correctAnswers := correct_answers_for df_a t.questionId
                allAnswers := all_answers_for df_a t.questionId
                difficulty := qrow.bind (fun q => q.difficulty)
                score := qrow.bind (fun q => q.score) : IncorrectCase }
            if ms.isEmpty then [mk_case none]
            else ms.map (fun q => mk_case (some q)))
          { status := if incorrect_questions.isEmpty then
                "incorrect_questions_not_built" else "ok"
            incorrect_questions := incorrect_questions
            total_questions_in_test := df_tq_current.length
            total_incorrect_questions := df_incorrect.length
            domain_performance_current := dp_current
            domain_performance_history := dp_history
            notes := [] }

/-! ### Lemmas about the domain aggregation -/

theorem length_filter_not (p : α → Bool) (l : List α) :
    (l.filter (fun a => !(p a))).length = l.length - (l.filter p).length := by
  induction l with
  | nil => rfl
  | cons a l ih =>
    have hle := List.length_filter_le p l
    cases h : p a
    · simp [List.filter_cons, h, ih]
      omega
    · simp [List.filter_cons, h, ih]

/-- The Boolean meaning of the filled `any_incorrect` column: a question is
scored incorrect when it has no answer rows at all (the `fillna(True)`
default) or some answer row is marked incorrect. -/
def zero_or_incorrect (ta_subset : List AnswerResultRow)
    (t : QuestionResultRow) : Bool :=
  let grp := ta_subset.filter (fun r => r.examResultQuestionId == t.id)
  grp.isEmpty || grp.any (fun r => !r.isCorrect)

theorem getD_any_incorrect (ta : List AnswerResultRow)
    (t : QuestionResultRow) :
    (any_incorrect_for ta t.id).getD true = zero_or_incorrect ta t := by
  simp only [any_incorrect_for, zero_or_incorrect]
  split
  · rename_i h
    simp [h]
  · rename_i h
    simp [h]

theorem not_is_correct_row (ta : List AnswerResultRow)
    (t : QuestionResultRow) :
    (!(is_correct_row ta t)) = zero_or_incorrect ta t := by
  simp only [is_correct_row, Bool.not_not]
  exact getD_any_incorrect ta t

/-- Inversion for `build_domain_performance`: the shape of a returned
aggregation. -/
theorem build_domain_performance_eq_some {tq_subset : List QuestionResultRow}
    {df_ta : List AnswerResultRow} {df_q : List QuestionBankRow}
    {p : DomainPerformance}
    (h : build_domain_performance tq_subset df_ta df_q = some p) :
    p.domains = (first_dedup ((join_domains df_q tq_subset).map Prod.snd)).map
      (domain_row_for (join_domains df_q tq_subset)
        (ta_subset_for tq_subset df_ta)) ∧
    p.overall = overall_row_for p.domains := by
  simp only [build_domain_performance] at h
  split at h
  · exact absurd h (by simp)
  · split at h
    · exact absurd h (by simp)
    · rw [Option.some.injEq] at h
      subst h
      exact ⟨rfl, rfl⟩

theorem domain_row_incorrect_count {tq_subset : List QuestionResultRow}
    {df_ta : List AnswerResultRow} {df_q : List QuestionBankRow}
    {p : DomainPerformance}
    (h : build_domain_performance tq_subset df_ta df_q = some p) :
    ∀ d ∈ p.domains,
      d.incorrect = ((join_domains df_q tq_subset).filter (fun pr =>
        pr.2 == d.domain &&
          zero_or_incorrect (ta_subset_for tq_subset df_ta) pr.1)).length := by
  intro d hd
  rw [(build_domain_performance_eq_some h).1] at hd
  rcases List.mem_map.1 hd with ⟨dom, _hdom, rfl⟩
  have h1 : (join_domains df_q tq_subset).filter (fun pr => pr.2 == dom &&
        zero_or_incorrect (ta_subset_for tq_subset df_ta) pr.1) =
      ((join_domains df_q tq_subset).filter (fun pr => pr.2 == dom)).filter
        (fun pr => !(is_correct_row (ta_subset_for tq_subset df_ta) pr.1)) := by
    rw [List.filter_filter]
    refine List.filter_congr ?_
    intro pr _
    rw [not_is_correct_row, Bool.and_comm]
  simp only [domain_row_for]
  rw [h1]
  exact (length_filter_not
    (fun pr => is_correct_row (ta_subset_for tq_subset df_ta) pr.1)
    ((join_domains df_q tq_subset).filter (fun pr => pr.2 == dom))).symm

/-! ### Claim C2 -/

/-- Question-result rows for the C2 counterexample: `tq1` and `tq2` belong
to attempt `res1`. -/
def exTQ2 : List QuestionResultRow :=
  [⟨"tq1", "res1", "qA"⟩, ⟨"tq2", "res1", "qB"⟩]

/-- Answer rows for the C2 counterexample: `tq1` has one correct answer,
`tq2` has no answer rows at all. -/
def exTA2 : List AnswerResultRow :=
  [⟨"tq1", "A", true⟩]

/-- Question bank for the C2 counterexample: both questions in domain
`D`. -/
def exQ2 : List QuestionBankRow :=
  [{ id := "qA", domain := some "D" }, { id := "qB", domain := some "D" }]

/-- C2 counterexample: question-result row `tq2` has zero answer rows and
every logged answer row is correct, yet the aggregation reports domain `D`
with incorrect count 1 — the zero-answer row IS counted toward the
domain's incorrect count (its missing `any_incorrect` is filled with
`True`). -/
theorem C2_counterexample :
    (exTA2.filter (fun r => r.examResultQuestionId == "tq2")).isEmpty = true ∧
    exTA2.all (fun r => r.isCorrect) = true ∧
    (build_domain_performance exTQ2 exTA2 exQ2).map
      (fun p => p.domains.map (fun d => (d.domain, d.incorrect))) =
      some [("D", 1)] := by
  exact ⟨rfl, rfl, rfl⟩

/-- C2 (amended).  A question-result row with zero answer rows never
produces an `IncorrectCase`; in the domain-performance aggregation,
however, it is counted toward its domain's incorrect count: each domain's
incorrect count equals the number of its joined rows whose answer group is
empty or contains an incorrect answer. -/
theorem C2_zero_answer_rows :
    (∀ (tq_subset : List QuestionResultRow) (df_ta : List AnswerResultRow)
      (df_q : List QuestionBankRow) (p : DomainPerformance),
      build_domain_performance tq_subset df_ta df_q = some p →
      ∀ d ∈ p.domains,
        d.incorrect = ((join_domains df_q tq_subset).filter (fun pr =>
          pr.2 == d.domain &&
            zero_or_incorrect (ta_subset_for tq_subset df_ta) pr.1)).length) ∧
    (∀ (current_id : String) (history_id : Option String)
      (df_q : List QuestionBankRow) (df_a : List AnswerBankRow)
      (df_tq : List QuestionResultRow) (df_ta : List AnswerResultRow)
      (tq_id : String),
      ((ta_subset_for (df_tq.filter (fun t => t.examResultId == current_id))
        df_ta).filter (fun r => r.examResultQuestionId == tq_id)).isEmpty →
      ∀ c ∈ (get_incorrect_question_cases (some current_id) history_id df_q
        df_a df_tq df_ta).incorrect_questions,
          c.testResultQuestionId ≠ tq_id) := by
  constructor
  · intro tq_subset df_ta df_q p h
    exact domain_row_incorrect_count h
  · intro current_id history_id df_q df_a df_tq df_ta tq_id hempty c hc hid
    simp only [get_incorrect_question_cases] at hc
    split at hc
    · simp at hc
    · split at hc
      · simp at hc
      · split at hc
        · simp at hc
        · rcases List.mem_flatMap.1 hc with ⟨t, ht, hcase⟩
          have htid : c.testResultQuestionId = t.id := by
            split at hcase
            · rcases List.mem_singleton.1 hcase with rfl
              rfl
            · rcases List.mem_map.1 hcase with ⟨q, _hq, rfl⟩
              rfl
          have hflag := List.of_mem_filter ht
          rw [htid] at hid
          subst hid
          rw [List.isEmpty_iff] at hempty
          simp only [any_incorrect_for, hempty, List.isEmpty_nil, if_pos,
            Option.getD_none] at hflag
          exact absurd hflag (by decide)

/-! ### Claim C4 -/

theorem ratio_bounds {c t : ℕ} (hct : c ≤ t) (ht : 0 < t) :
    0 ≤ ((c : ℚ) / (t : ℚ)) ∧ ((c : ℚ) / (t : ℚ)) ≤ 1 := by
  constructor
  · positivity
  · rw [div_le_one (by exact_mod_cast ht)]
    exact_mod_cast hct

theorem domain_row_correct_le_total {tq_subset : List QuestionResultRow}
    {df_ta : List AnswerResultRow} {df_q : List QuestionBankRow}
    {p : DomainPerformance}
    (h : build_domain_performance tq_subset df_ta df_q = some p) :
    ∀ d ∈ p.domains, d.correct ≤ d.total := by
  intro d hd
  rw [(build_domain_performance_eq_some h).1] at hd
  rcases List.mem_map.1 hd with ⟨dom, _hdom, rfl⟩
  exact List.length_filter_le _ _

/-- C4: in every domain-performance aggregation the code returns, each
per-domain accuracy and the overall accuracy is `some a` with
`a ∈ [0, 1]` whenever the corresponding total is positive, and is the
explicit undefined value `none` whenever the total is zero — no accuracy
is computed with a zero denominator. -/
theorem C4_accuracy_bounds (tq_subset : List QuestionResultRow)
    (df_ta : List AnswerResultRow) (df_q : List QuestionBankRow)
    (p : DomainPerformance)
    (h : build_domain_performance tq_subset df_ta df_q = some p) :
    (∀ d ∈ p.domains,
      (0 < d.total → ∃ a, d.accuracy = some a ∧ 0 ≤ a ∧ a ≤ 1) ∧
      (d.total = 0 → d.accuracy = none)) ∧
    (0 < p.overall.total →
      ∃ a, p.overall.accuracy = some a ∧ 0 ≤ a ∧ a ≤ 1) ∧
    (p.overall.total = 0 → p.overall.accuracy = none) := by
  obtain ⟨hdoms, hover⟩ := build_domain_performance_eq_some h
  have hcorr := domain_row_correct_le_total h
  constructor
  · intro d hd
    have hct := hcorr d hd
    rw [hdoms] at hd
    rcases List.mem_map.1 hd with ⟨dom, _hdom, rfl⟩
    simp only [domain_row_for] at hct ⊢
    constructor
    · intro hpos
      refine ⟨_, if_neg (Nat.pos_iff_ne_zero.1 hpos), ?_⟩
      exact ratio_bounds hct hpos
    · intro h0
      exact if_pos h0
  · have hsum : (p.domains.map (fun r => r.correct)).sum ≤
        (p.domains.map (fun r => r.total)).sum :=
      List.sum_le_sum (fun d hd => hcorr d hd)
    rw [hover]
    constructor
    · intro hpos
      have hpos' : 0 < (p.domains.map (fun r => r.total)).sum := hpos
      refine ⟨(((p.domains.map (fun r => r.correct)).sum : ℕ) : ℚ) /
        (((p.domains.map (fun r => r.total)).sum : ℕ) : ℚ), ?_,
        ratio_bounds hsum hpos'⟩
      show (if (p.domains.map (fun r => r.total)).sum = 0 then none
        else some ((((p.domains.map (fun r => r.correct)).sum : ℕ) : ℚ) /
          (((p.domains.map (fun r => r.total)).sum : ℕ) : ℚ))) = _
      rw [if_neg (Nat.pos_iff_ne_zero.1 hpos')]
    · intro h0
      have h0' : (p.domains.map (fun r => r.total)).sum = 0 := h0
      show (if (p.domains.map (fun r => r.total)).sum = 0 then none
        else some ((((p.domains.map (fun r => r.correct)).sum : ℕ) : ℚ) /
          (((p.domains.map (fun r => r.total)).sum : ℕ) : ℚ))) = none
      rw [if_pos h0']

/-- Answer bank used by the agent-2 witnesses. -/
def exAB2 : List AnswerBankRow := [⟨"qA", "A", true⟩, ⟨"qB", "B", true⟩]

/-- The aggregation the code returns on the C2 counterexample data. -/
def exPerfC2 : DomainPerformance :=
  { domains := [⟨"D", 2, 1, 1, some (((1 : ℕ) : ℚ) / ((2 : ℕ) : ℚ))⟩]
    overall := ⟨2, 1, 1, some (((1 : ℕ) : ℚ) / ((2 : ℕ) : ℚ))⟩ }

/-- Witness for C4 at a concrete aggregation. -/
theorem C4_accuracy_bounds_witness :
    (∀ d ∈ exPerfC2.domains,
      (0 < d.total → ∃ a, d.accuracy = some a ∧ 0 ≤ a ∧ a ≤ 1) ∧
      (d.total = 0 → d.accuracy = none)) ∧
    (0 < exPerfC2.overall.total →
      ∃ a, exPerfC2.overall.accuracy = some a ∧ 0 ≤ a ∧ a ≤ 1) ∧
    (exPerfC2.overall.total = 0 → exPerfC2.overall.accuracy = none) :=
  C4_accuracy_bounds exTQ2 exTA2 exQ2 exPerfC2 rfl

/-- Witness for the amended C2 at a concrete input: the zero-answer row
`tq2` yields no incorrect case, and domain `D`'s incorrect count equals
its one row with an empty answer group. -/
theorem C2_zero_answer_rows_witness :
    (∀ d ∈ exPerfC2.domains,
      d.incorrect = ((join_domains exQ2 exTQ2).filter (fun pr =>
        pr.2 == d.domain &&
          zero_or_incorrect (ta_subset_for exTQ2 exTA2) pr.1)).length) ∧
    (∀ c ∈ (get_incorrect_question_cases (some "res1") none exQ2 exAB2 exTQ2
      exTA2).incorrect_questions, c.testResultQuestionId ≠ "tq2") :=
  ⟨C2_zero_answer_rows.1 exTQ2 exTA2 exQ2 exPerfC2 rfl,
   C2_zero_answer_rows.2 "res1" none exQ2 exAB2 exTQ2 exTA2 "tq2" rfl⟩

/-! ### Claim C5 -/

/-- C5: a question of the current attempt produces an incorrect case if
and only if at least one of its answer rows is marked incorrect — the
any-incorrect rule of `get_incorrect_question_cases`. -/
theorem C5_any_incorrect_rule (current_id : String)
    (history_id : Option String) (df_q : List QuestionBankRow)
    (df_a : List AnswerBankRow) (df_tq : List QuestionResultRow)
    (df_ta : List AnswerResultRow) (t : QuestionResultRow)
    (ht : t ∈ df_tq.filter (fun t0 => t0.examResultId == current_id)) :
    (∃ c ∈ (get_incorrect_question_cases (some current_id) history_id df_q
      df_a df_tq df_ta).incorrect_questions,
        c.testResultQuestionId = t.id) ↔
    (∃ r ∈ df_ta, r.examResultQuestionId = t.id ∧ r.isCorrect = false) := by
  constructor
  · rintro ⟨c, hc, hcid⟩
    simp only [get_incorrect_question_cases] at hc
    split at hc
    · simp at hc
    · split at hc
      · simp at hc
      · split at hc
        · simp at hc
        · rcases List.mem_flatMap.1 hc with ⟨t', ht', hcase⟩
          have htid : c.testResultQuestionId = t'.id := by
            split at hcase
            · rcases List.mem_singleton.1 hcase with rfl
              rfl
            · rcases List.mem_map.1 hcase with ⟨q, _hq, rfl⟩
              rfl
          have hflag := List.of_mem_filter ht'
          rw [htid] at hcid
          simp only [any_incorrect_for] at hflag
          split at hflag
          · exact absurd hflag (by simp)
          · rw [Option.getD_some] at hflag
            rcases List.any_eq_true.1 hflag with ⟨r, hr, hrinc⟩
            have hreq : r.examResultQuestionId = t'.id := by
              have h0 := List.of_mem_filter hr
              simp only [beq_iff_eq] at h0
              exact h0
            have hrta := List.mem_of_mem_filter hr
            refine ⟨r, List.mem_of_mem_filter hrta, ?_, ?_⟩
            · exact hreq.trans hcid
            · simpa using hrinc
  · rintro ⟨r, hr, hrid, hrcor⟩
    have hne1 : (df_tq.filter
        (fun t0 => t0.examResultId == current_id)).isEmpty = false :=
      List.isEmpty_eq_false_iff_exists_mem.2 ⟨t, ht⟩
    have hrta : r ∈ ta_subset_for
        (df_tq.filter (fun t0 => t0.examResultId == current_id)) df_ta := by
      refine List.mem_filter.2 ⟨hr, ?_⟩
      refine List.any_eq_true.2 ⟨t, ht, ?_⟩
      exact beq_of_eq hrid.symm
    have hne2 : (ta_subset_for
        (df_tq.filter (fun t0 => t0.examResultId == current_id))
        df_ta).isEmpty = false :=
      List.isEmpty_eq_false_iff_exists_mem.2 ⟨r, hrta⟩
    have hgrp : r ∈ (ta_subset_for
        (df_tq.filter (fun t0 => t0.examResultId == current_id)) df_ta).filter
          (fun r0 => r0.examResultQuestionId == t.id) :=
      List.mem_filter.2 ⟨hrta, beq_of_eq hrid⟩
    have hflag : (any_incorrect_for (ta_subset_for
        (df_tq.filter (fun t0 => t0.examResultId == current_id)) df_ta)
          t.id).getD false = true := by
      simp only [any_incorrect_for]
      rw [if_neg (by
        simp only [List.isEmpty_eq_true]
        exact List.ne_nil_of_mem hgrp)]
      rw [Option.getD_some]
      refine List.any_eq_true.2 ⟨r, hgrp, ?_⟩
      simp [hrcor]
    have htinc : t ∈ (df_tq.filter
        (fun t0 => t0.examResultId == current_id)).filter
          (fun t0 => (any_incorrect_for (ta_subset_for
            (df_tq.filter (fun t1 => t1.examResultId == current_id)) df_ta)
              t0.id).getD false) :=
      List.mem_filter.2 ⟨ht, hflag⟩
    have hne3 : ((df_tq.filter
        (fun t0 => t0.examResultId == current_id)).filter
          (fun t0 => (any_incorrect_for (ta_subset_for
            (df_tq.filter (fun t1 => t1.examResultId == current_id)) df_ta)
              t0.id).getD false)).isEmpty = false :=
      List.isEmpty_eq_false_iff_exists_mem.2 ⟨t, htinc⟩
    simp only [get_incorrect_question_cases, hne1, hne2, hne3,
      Bool.false_eq_true, if_false]
    by_cases hms : (df_q.filter (fun q => q.id == t.questionId)).isEmpty = true
    · exact ⟨_, List.mem_flatMap.2 ⟨t, htinc,
        by rw [if_pos hms]; exact List.mem_singleton.2 rfl⟩, rfl⟩
    · have hms' : df_q.filter (fun q => q.id == t.questionId) ≠ [] := by
        simpa [List.isEmpty_eq_true] using hms
      obtain ⟨q, hq⟩ := List.exists_mem_of_ne_nil _ hms'
      exact ⟨_, List.mem_flatMap.2 ⟨t, htinc,
        by rw [if_neg hms]; exact List.mem_map_of_mem _ hq⟩, rfl⟩

/-- Question-result rows for the C5 witness: `tqG` (all answers correct)
and `tqB` (one incorrect answer) in attempt `res5`. -/
def exTQ5 : List QuestionResultRow :=
  [⟨"tqG", "res5", "qG"⟩, ⟨"tqB", "res5", "qB"⟩]

/-- Answer rows for the C5 witness: `tqG` has `[{value:"A", isCorrect:true}]`,
`tqB` has `[{value:"A", isCorrect:false}, {value:"B", isCorrect:true}]`. -/
def exTA5 : List AnswerResultRow :=
  [⟨"tqG", "A", true⟩, ⟨"tqB", "A", false⟩, ⟨"tqB", "B", true⟩]

/-- Question bank for the C5 witness. -/
def exQ5 : List QuestionBankRow := [{ id := "qG" }, { id := "qB" }]

/-- Witness for C5: the all-correct question is excluded from the incorrect
cases and the any-incorrect question is included. -/
theorem C5_any_incorrect_rule_witness :
    (¬ ∃ c ∈ (get_incorrect_question_cases (some "res5") none exQ5 exAB2
      exTQ5 exTA5).incorrect_questions, c.testResultQuestionId = "tqG") ∧
    (∃ c ∈ (get_incorrect_question_cases (some "res5") none exQ5 exAB2
      exTQ5 exTA5).incorrect_questions, c.testResultQuestionId = "tqB") := by
  constructor
  · intro h
    have h2 := (C5_any_incorrect_rule "res5" none exQ5 exAB2 exTQ5 exTA5
      ⟨"tqG", "res5", "qG"⟩ (by decide)).1 h
    exact absurd h2 (by decide)
  · exact (C5_any_incorrect_rule "res5" none exQ5 exAB2 exTQ5 exTA5
      ⟨"tqB", "res5", "qB"⟩ (by decide)).2
      ⟨⟨"tqB", "A", false⟩, by decide, rfl, rfl⟩

/-! ## Agent 1: test context (agent1_test_context.py) -/

/-- One row of `ExamResult.csv`; `createdAt` is the parsed timestamp as an
integer instant. -/
structure AttemptRecord where
  id : String
  examContentId : String
  userId : String
  attemptNumber : Int
  totalAttempts : Int
  durationTakenMs : Int
  earnedScore : Int
  totalScore : Int
  status : String
  createdAt : Int
deriving DecidableEq, Repr

/-- The `CORE_COLS` column list of agent 1. -/
def CORE_COLS : List String :=
  ["id", "examContentId", "userId", "attemptNumber", "totalAttempts",
   "durationTakenMs", "earnedScore", "totalScore", "status", "createdAt"]

/-- String view of one cell of an `AttemptRecord`, as it appears in the
serialized column dict. -/
def core_col_value (r : AttemptRecord) (c : String) : String :=
  if c = "id" then r.id
  else if c = "examContentId" then r.examContentId
  else if c = "userId" then r.userId
  else if c = "attemptNumber" then toString r.attemptNumber
  else if c = "totalAttempts" then toString r.totalAttempts
  else if c = "durationTakenMs" then toString r.durationTakenMs
  else if c = "earnedScore" then toString r.earnedScore
  else if c = "totalScore" then toString r.totalScore
  else if c = "status" then r.status
  else if c = "createdAt" then toString r.createdAt
  else ""

/-- `DataFrame.to_dict()` on the `CORE_COLS`-selected frame: one key per
column, each mapping to a row-index-to-cell dict.  For an empty slice every
column maps to an empty dict, but the outer dict still has one entry per
column — it is never empty (never falsy). -/
def df_to_dict (rows : List AttemptRecord) :
    List (String × List (Nat × String)) :=
  CORE_COLS.map (fun c => (c, rows.enum.map (fun p => (p.1, core_col_value p.2 c))))

/-- The sort `sort_values(["attemptNumber", "testTakenDT"],
ascending=[False, False])`: attempt number descending, timestamp breaking
ties descending. -/
def sort_attempts (l : List AttemptRecord) : List AttemptRecord :=
  l.insertionSort (fun a b =>
    b.attemptNumber < a.attemptNumber ∨
      (a.attemptNumber = b.attemptNumber ∧ b.createdAt ≤ a.createdAt))

/-- Result shape of `get_student_test_history`.  `history_test_result`
carries the Python value produced by `iloc[1:2].to_dict()` — a
column-keyed dict of index dicts, not a plain record. -/
structure Agent1Output where
  status : String
  current_test_result : Option AttemptRecord
  history_test_result : Option (List (String × List (Nat × String)))
  notes : List String
deriving DecidableEq, Repr

/-- Embedding of `get_student_test_history`: filter by student, then by
test content id, sort, take the first row as the current attempt and
serialize the `iloc[1:2]` slice as the history dict; the first-time note
is appended only when that dict is falsy. -/
def get_student_test_history (test_id : String) (student_id : String)
    (df : List AttemptRecord) : Agent1Output :=
  let df_student := df.filter (fun r => r.userId == student_id)
  if df_student.isEmpty then
    { status := "no_tests_for_student"
      current_test_result := none
      history_test_result := none
      notes := ["This student has not taken any tests."] }
  else
    let df_student_test := df_student.filter (fun r => r.examContentId == test_id)
    if df_student_test.isEmpty then
      { status := "no_current_test"
        current_test_result := none
        history_test_result := none
        notes := ["Student has test history, but not for this test_id."] }
    else
      let sorted := sort_attempts df_student_test
      let history_dict := df_to_dict ((sorted.drop 1).take 1)
      { status := "ok"
        current_test_result := sorted.head?
        history_test_result := some history_dict
        notes := if history_dict.isEmpty then
            ["No previous attempts for this test_id (first time taking this test)."]
          else [] }

/-! ### Claim C3 -/

/-- Attempt table with a single attempt (attemptNumber 1). -/
def exDF1 : List AttemptRecord :=
  [⟨"r1", "T", "S", 1, 1, 0, 5, 10, "done", 100⟩]

/-- Attempt table with attempt numbers `[1, 2, 3]` and ascending
timestamps. -/
def exDF3 : List AttemptRecord :=
  [⟨"r1", "T", "S", 1, 3, 0, 5, 10, "done", 100⟩,
   ⟨"r2", "T", "S", 2, 3, 0, 6, 10, "done", 200⟩,
   ⟨"r3", "T", "S", 3, 3, 0, 7, 10, "done", 300⟩]

/-- C3 evaluation at the failing input.  With attempts `[1,2,3]` the
current attempt is attempt 3 and the history dict holds attempt 2's row,
as claimed.  But with a single attempt the history value is a dict of ten
column keys each mapping to an empty cell dict — truthy in Python — so
`if not history_test_result` is never taken and the first-time note is
never recorded, contradicting the claim (and the function's own
documented output shape). -/
theorem C3_first_time_note_never_recorded :
    ((get_student_test_history "T" "S" exDF3).current_test_result.map
      (fun r => r.attemptNumber)) = some 3 ∧
    (((get_student_test_history "T" "S" exDF3).history_test_result.getD
      []).find? (fun p => p.1 == "id")).map Prod.snd = some [(0, "r2")] ∧
    (get_student_test_history "T" "S" exDF1).history_test_result ≠ some [] ∧
    (((get_student_test_history "T" "S" exDF1).history_test_result.getD
      []).all (fun p => p.2.isEmpty)) = true ∧
    (get_student_test_history "T" "S" exDF1).notes = [] := by
  decide

/-! ## Agent 3: weakness-text parsing (agent3_weakness_extraction.py)

The first two tiers call the standard library (`json.loads`,
`ast.literal_eval`) on the input text; they are modelled by their outcome:
a parse error (the caught exception), a parsed list, or a parsed non-list
value that the code promotes to a one-element list.  The five regex
searches of the third tier are likewise modelled by their match results;
the field assembly and the final emptiness check of
`_extract_weakness_by_regex` are embedded concretely. -/

/-- Outcome of one parsing tier on the input text. -/
inductive ParseOutcome (α : Type) where
  | failed : ParseOutcome α
  | list (items : List α) : ParseOutcome α
  | single (item : α) : ParseOutcome α
deriving DecidableEq, Repr

/-- Match results of the five regex searches of
`_extract_weakness_by_regex` on the input text: `none` when the search
found nothing; `evidence_ids` lists the integers found inside the
bracketed list (empty when the search failed or the brackets held no
integers). -/
structure RegexFinds where
  weakness : Option String := none
  pattern_type : Option String := none
  description : Option String := none
  evidence_ids : List Nat := []
  frequency : Option Nat := none
deriving DecidableEq, Repr

/-- The result dict assembled by `_extract_weakness_by_regex`: each field
is present exactly when its search succeeded. -/
structure WeaknessFields where
  weakness : Option String := none
  pattern_type : Option String := none
  description : Option String := none
  evidence_question_ids : Option (List Nat) := none
  frequency : Option Nat := none
deriving DecidableEq, Repr

/-- Python truthiness of the result dict: empty iff no field was set. -/
def weakness_fields_empty (r : WeaknessFields) : Bool :=
  r.weakness.isNone && r.pattern_type.isNone && r.description.isNone &&
    r.evidence_question_ids.isNone && r.frequency.isNone

/-- Embedding of `_extract_weakness_by_regex`: set each found field
(`evidence_question_ids` only when integers were found), then return
`[result]` when the dict is non-empty and `[]` otherwise. -/
def extract_weakness_by_regex (finds : RegexFinds) : List WeaknessFields :=
  let result : WeaknessFields :=
    { weakness := finds.weakness
      pattern_type := finds.pattern_type
      description := finds.description
      evidence_question_ids := if finds.evidence_ids.isEmpty then none
        else some finds.evidence_ids
      frequency := finds.frequency }
  if weakness_fields_empty result then [] else [result]

/-- Embedding of `convert_llm_weaknesses_for_agent3`: strict JSON first,
then the Python-literal tier, then the regex fallback; list results are
returned as they are and a single parsed object is promoted to a
one-element list. -/
def convert_llm_weaknesses_for_agent3 {α : Type}
    (json_parse : ParseOutcome α) (literal_parse : ParseOutcome α)
    (from_fields : WeaknessFields → α) (regex_finds : RegexFinds) :
    List α :=
  match json_parse with
  | .list items => items
  | .single a => [a]
  | .failed =>
    match literal_parse with
    | .list items => items
    | .single a => [a]
    | .failed => (extract_weakness_by_regex regex_finds).map from_fields

/-- The regex tier returns the empty list exactly when none of the five
field searches produced anything. -/
theorem extract_weakness_by_regex_nil_iff (finds : RegexFinds) :
    extract_weakness_by_regex finds = [] ↔
      (finds.weakness = none ∧ finds.pattern_type = none ∧
       finds.description = none ∧ finds.evidence_ids = [] ∧
       finds.frequency = none) := by
  simp only [extract_weakness_by_regex]
  by_cases hids : finds.evidence_ids.isEmpty = true
  · rw [if_pos hids]
    have hids2 : finds.evidence_ids = [] := List.isEmpty_iff.1 hids
    split
    · rename_i hm
      simp only [weakness_fields_empty, Bool.and_eq_true,
        Option.isNone_iff_eq_none] at hm
      obtain ⟨⟨⟨⟨h1, h2⟩, h3⟩, _h4⟩, h5⟩ := hm
      simp [h1, h2, h3, h5, hids2]
    · rename_i hm
      constructor
      · intro h
        exact absurd h (by simp)
      · rintro ⟨h1, h2, h3, h4, h5⟩
        exact absurd (by simp [weakness_fields_empty, h1, h2, h3, h5]) hm
  · rw [if_neg hids]
    have hne : finds.evidence_ids ≠ [] := by
      simpa [List.isEmpty_iff] using hids
    split
    · rename_i hm
      simp only [weakness_fields_empty, Bool.and_eq_true,
        Option.isNone_iff_eq_none] at hm
      exact absurd hm.1.2 (by simp)
    · rename_i hm
      constructor
      · intro h
        exact absurd h (by simp)
      · rintro ⟨h1, h2, h3, h4, h5⟩
        exact absurd h4 hne

/-! ### Claim C6 -/

/-- C6: the three-tier cascade is total — each tier's result is returned
as a list (a single object promoted to a one-element list), parse failures
fall through, and when both structured tiers fail the regex tier returns
at most one record; it returns the empty list exactly when no field was
extracted. -/
theorem C6_cascade_never_fails (α : Type) (from_fields : WeaknessFields → α)
    (finds : RegexFinds) (literal_parse : ParseOutcome α) :
    (∀ items : List α, convert_llm_weaknesses_for_agent3 (.list items)
      literal_parse from_fields finds = items) ∧
    (∀ a : α, convert_llm_weaknesses_for_agent3 (.single a) literal_parse
      from_fields finds = [a]) ∧
    (∀ items : List α, convert_llm_weaknesses_for_agent3 .failed
      (.list items) from_fields finds = items) ∧
    (∀ a : α, convert_llm_weaknesses_for_agent3 .failed (.single a)
      from_fields finds = [a]) ∧
    ((convert_llm_weaknesses_for_agent3 .failed .failed from_fields
      finds).length ≤ 1) ∧
    (convert_llm_weaknesses_for_agent3 .failed .failed from_fields finds = []
      ↔ (finds.weakness = none ∧ finds.pattern_type = none ∧
         finds.description = none ∧ finds.evidence_ids = [] ∧
         finds.frequency = none)) := by
  refine ⟨fun _ => rfl, fun _ => rfl, fun _ => rfl, fun _ => rfl, ?_, ?_⟩
  · show ((extract_weakness_by_regex finds).map from_fields).length ≤ 1
    simp only [extract_weakness_by_regex]
    split <;> split <;> simp
  · show (extract_weakness_by_regex finds).map from_fields = [] ↔ _
    rw [List.map_eq_nil_iff]
    exact extract_weakness_by_regex_nil_iff finds

/-! ## Agent 5: user-facing response (agent5_user_facing_response.py)

Python string methods are modelled structurally over the character list
(`py_strip` for `.strip()`, `py_replace` for `.replace(...)`), numeric
formatting (`f"{x:.0f}"`, `f"{x:.1f}"`, `f"{x:+.1f}"`) by rounding helpers
on rationals, and the JSON summary dict as an association list of string
or string-list values. -/

/-- Drop leading whitespace of a character list (one side of Python
`.strip()`). -/
def ltrim_chars : List Char → List Char
  | [] => []
  | c :: rest => if c.isWhitespace then ltrim_chars rest else c :: rest

/-- Python `str.strip()`: remove leading and trailing whitespace. -/
def py_strip (s : String) : String :=
  ⟨((ltrim_chars ((ltrim_chars s.data).reverse)).reverse)⟩

/-- Drop `pattern` from the front of the list when it is a prefix. -/
def drop_prefix_chars : List Char → List Char → Option (List Char)
  | l, [] => some l
  | [], _ :: _ => none
  | c :: l, p :: ps => if c = p then drop_prefix_chars l ps else none

/-- Fuel-indexed worker for `py_replace`; the fuel is the input length,
and each step consumes at least one character. -/
def replace_chars (pat rep : List Char) : Nat → List Char → List Char
  | 0, l => l
  | _ + 1, [] => []
  | fuel + 1, c :: rest =>
    match drop_prefix_chars (c :: rest) pat with
    | some remainder => rep ++ replace_chars pat rep fuel remainder
    | none => c :: replace_chars pat rep fuel rest

/-- Python `str.replace(pattern, replacement)`: replace every
non-overlapping occurrence left to right (the empty pattern does not occur
in the source). -/
def py_replace (s pat rep : String) : String :=
  if pat.data.isEmpty then s
  else ⟨replace_chars pat.data rep.data s.data.length s.data⟩

/-- Python f-string `{x:.0f}`: the value rounded to an integer. -/
def fmt0 (q : ℚ) : String := toString (round q)

/-- Python f-string `{x:.1f}` for the nonnegative values formatted here:
one decimal digit. -/
def fmt1 (q : ℚ) : String :=
  let n := round (q * 10)
  toString (n / 10) ++ "." ++ toString (n % 10)

/-- Python f-string `{x:+.1f}`: always-signed one-decimal format. -/
def fmt_signed1 (q : ℚ) : String :=
  (if 0 ≤ q then "+" else "") ++ fmt1 q

/-- Python truthiness of an optional integer (`None` and `0` are falsy). -/
def int_truthy (v : Option Int) : Bool :=
  match v with
  | none => false
  | some n => n != 0

/-- One JSON value of the summary object: a string, a number or a list of
strings (the shapes produced and consumed by the report composer). -/
inductive JVal where
  | s (v : String)
  | n (v : Int)
  | lst (vs : List String)
  | null
deriving DecidableEq, Repr

/-- Outcome of `json.loads` on the cleaned narrative text: an exception, a
non-object value, or an object with its fields. -/
inductive ParsedJson where
  | fails
  | nonDict
  | dict (fields : List (String × JVal))
deriving DecidableEq, Repr

/-- The serialized current-attempt dict as seen by agent 5 (`_to_int`-able
cells; absent keys are `none`). -/
structure TestResultInfo where
  testTitle : Option String := none
  attemptNumber : Option Int := none
  totalAttempts : Option Int := none
  earnedScore : Option Int := none
  totalScore : Option Int := none
  status : Option String := none
deriving DecidableEq, Repr

/-- The incorrect-question summary dict passed by the pipeline. -/
structure IncorrectSummaryInfo where
  total_questions_in_test : Option Int := none
  total_incorrect_questions : Option Int := none
deriving DecidableEq, Repr

/-- Embedding of `_parse_llm_json`: strip code fences, parse, and return
the object's fields when the result is a dict, `{}` (the empty field list)
otherwise. -/
def parse_llm_json (json_loads : String → ParsedJson) (raw_text : String) :
    List (String × JVal) :=
  let cleaned := py_strip (py_replace (py_replace (py_strip raw_text)
    "```json" "") "```" "")
  match json_loads cleaned with
  | .dict fields => fields
  | _ => []

/-- The attempt clause of `_summarize_test_result`. -/
def attempt_clause (attempt total_attempts : Option Int) : String :=
  match attempt with
  | none => ""
  | some a =>
    if a = 0 then ""
    else match total_attempts with
      | some ta =>
        if ta ≠ 0 ∧ a ≤ ta then
          " (attempt " ++ toString a ++ " of " ++ toString ta ++ ")"
        else " (attempt " ++ toString a ++ ")"
      | none => " (attempt " ++ toString a ++ ")"

/-- Embedding of `_summarize_test_result`: the current-performance
sentence built from attempt metadata and the incorrect-question counts. -/
def summarize_test_result (test_result : TestResultInfo)
    (incorrect_summary : Option IncorrectSummaryInfo) : String :=
  let title := py_or test_result.testTitle "this test"
  let head := "In " ++ title ++
    attempt_clause test_result.attemptNumber test_result.totalAttempts
  let score_clause : Option String :=
    match test_result.earnedScore with
    | none => none
    | some sc =>
      match test_result.totalScore with
      | some ts =>
        if ts ≠ 0 then
          some ("scored " ++ toString sc ++ "/" ++ toString ts ++ " (" ++
            fmt0 ((sc : ℚ) / (ts : ℚ) * 100) ++ "%)")
        else some ("scored " ++ toString sc)
      | none => some ("scored " ++ toString sc)
  let status_part : List String :=
    match test_result.status with
    | some st => if st = "" then [] else ["status: " ++ st]
    | none => []
  let incorrect_part : List String :=
    match incorrect_summary with
    | none => []
    | some isum =>
      match isum.total_questions_in_test with
      | none => []
      | some tq =>
        if tq = 0 then []
        else match isum.total_incorrect_questions with
          | none => [toString tq ++ " questions assessed."]
          | some iq =>
            [toString tq ++ " questions with " ++ toString iq ++
              " incorrect (" ++
              fmt0 (((max (tq - iq) 0 : Int) : ℚ) / (tq : ℚ) * 100) ++
              "% correct)"]
  let parts := [head] ++ (match score_clause with
    | some sc => [sc]
    | none => []) ++ status_part ++ incorrect_part
  String.intercalate "; " parts ++ "."

/-- Embedding of `_summarize_history`. -/
def summarize_history (history_result : TestResultInfo) : String :=
  let attempt := history_result.attemptNumber
  match history_result.earnedScore, history_result.totalScore with
  | some sc, some ts =>
    let attempt_text :=
      if int_truthy attempt then "attempt " ++ toString (attempt.getD 0) ++ " "
      else ""
    let percent_text :=
      if ts ≠ 0 then " (" ++ fmt0 ((sc : ℚ) / (ts : ℚ) * 100) ++ "%)"
      else ""
    "Previous " ++ attempt_text ++ "scored " ++ toString sc ++ "/" ++
      toString ts ++ percent_text ++ "."
  | _, _ =>
    if int_truthy attempt then
      "Previous attempt " ++ toString (attempt.getD 0) ++ " is on record."
    else ""

/-- Embedding of `_ranking_sentence`. -/
def ranking_sentence (participant_ranking : Option ℚ) : String :=
  match participant_ranking with
  | none => ""
  | some pr =>
    let pct := if pr ≤ 1 then pr * 100 else pr
    "Ranked within the top " ++ fmt1 pct ++ "% of participants."

/-- Embedding of `_test_title`: the current attempt's title, else the
history's, else the empty string (empty strings are falsy). -/
def test_title (test_result history_result : Option TestResultInfo) :
    String :=
  py_or (test_result.bind (fun r => r.testTitle))
    (py_or (history_result.bind (fun r => r.testTitle)) "")

/-- Embedding of `_progress_heading`. -/
def progress_heading (test_result history_result : Option TestResultInfo) :
    String :=
  match history_result with
  | none => ""
  | some _ =>
    let t := test_title test_result history_result
    "Progress Compared to Previous Test (" ++
      (if t = "" then "previous test" else t) ++ "):"

/-- Embedding of `_domain_improvement_summaries`: one sentence per domain
present in both the current and the prior aggregation with defined
accuracies. -/
def domain_improvement_summaries
    (domain_performance :
      Option (Option DomainPerformance × Option DomainPerformance)) :
    List String :=
  match domain_performance with
  | none => []
  | some (current, history) =>
    let curr_domains := (current.map (fun c => c.domains)).getD []
    let hist_domains := (history.map (fun h => h.domains)).getD []
    curr_domains.filterMap (fun curr =>
      match hist_domains.find? (fun h => h.domain == curr.domain) with
      | none => none
      | some hist =>
        match curr.accuracy, hist.accuracy with
        | some ca, some ha =>
          let delta := (ca - ha) * 100
          let direction := if 0 ≤ delta then "Improved" else "Declined"
          some (curr.domain ++ ": " ++ direction ++ " by " ++
            fmt_signed1 delta ++ "% (from " ++ fmt1 (ha * 100) ++ "% to " ++
            fmt1 (ca * 100) ++ "%)")
        | _, _ => none)

/-- Embedding of `_fallback_summary`: the deterministic report synthesized
when the narrative call fails or returns unusable text. -/
def fallback_summary (weaknesses : List Weakness)
    (recommendations : List CourseScore)
    (test_result : Option TestResultInfo)
    (incorrect_summary : Option IncorrectSummaryInfo)
    (history_result : Option TestResultInfo)
    (ranking_sentence_str : String)
    (domain_performance :
      Option (Option DomainPerformance × Option DomainPerformance))
    (progress_heading_str : String) (test_title_str : String) :
    List (String × JVal) :=
  let current_perf_parts :=
    (match test_result with
     | some tr => [summarize_test_result tr incorrect_summary]
     | none => []) ++
    (match history_result with
     | some hr =>
       let s := summarize_history hr
       if s = "" then [] else [s]
     | none => []) ++
    (if ranking_sentence_str = "" then [] else [ranking_sentence_str])
  let joined := String.intercalate " "
    (current_perf_parts.filter (fun p => p ≠ ""))
  let current_perf :=
    if joined = "" then
      "We reviewed your recent performance and identified specific skills that would benefit from additional focus."
    else joined
  let weakness_titles :=
    if weaknesses.isEmpty then "the assessed skills"
    else String.intercalate ", " ((weaknesses.take 3).map (fun w => w.text))
  let rec_sentences := recommendations.map (fun cs =>
    cs.course.lesson_title ++ " targets weakness " ++ cs.weakness_id ++ ".")
  let rec_sentences :=
    if rec_sentences.isEmpty then ["No course recommendations were generated."]
    else rec_sentences
  let domain_comparison := domain_improvement_summaries domain_performance
  [("Test Title",
    if test_title_str ≠ "" then JVal.s test_title_str
    else match test_result with
      | some tr =>
        match tr.testTitle with
        | some s => JVal.s s
        | none => JVal.null
      | none => JVal.s ""),
   ("Current Performance", JVal.s current_perf),
   ("Area to be Improved",
    JVal.s ("Priority focus areas include " ++ weakness_titles ++
      ". Strengthening these abilities will improve overall consistency.")),
   ("Recommended Course", JVal.lst rec_sentences),
   ("Progress Compared to Previous Test",
    JVal.s (if domain_comparison.isEmpty then "" else progress_heading_str)),
   ("Domain Comparison", JVal.lst domain_comparison)]

/-- Embedding of `_congrats_summary`: the fixed congratulatory template of
the all-correct path. -/
def congrats_summary (test_result history_result : Option TestResultInfo)
    (ranking_sentence_str : String) (progress_heading_str : String) :
    List (String × JVal) :=
  let perf_sentence :=
    match test_result with
    | some tr => summarize_test_result tr
        (some { total_questions_in_test := none
                total_incorrect_questions := some 0 })
    | none => ""
  let history_sentence :=
    match history_result with
    | some hr => summarize_history hr
    | none => ""
  let current_perf := String.intercalate " "
    (([perf_sentence, history_sentence, ranking_sentence_str,
       "Congratulations on answering every question correctly!"]).filter
      (fun p => p ≠ ""))
  let current_perf :=
    if current_perf = "" then
      "Congratulations on answering every question correctly!"
    else current_perf
  [("Test Title", JVal.s (test_title test_result history_result)),
   ("Current Performance", JVal.s current_perf),
   ("Area to be Improved",
    JVal.s "You achieved full accuracy on this attempt. Continue practicing to maintain your performance."),
   ("Recommended Course", JVal.lst []),
   ("Progress Compared to Previous Test",
    JVal.s (if progress_heading_str = "" then "" else progress_heading_str)),
   ("Domain Comparison", JVal.lst [])]

/-- One entry of the recommendations list returned next to the summary. -/
structure RecommendationOut where
  course_id : String
  course_title : String
  target_weakness_id : String
  explanation : String
deriving DecidableEq, Repr

/-- Result of `generate_user_facing_response`.  `called_llm` instruments
whether the external narrative call site was reached. -/
structure Agent5Output where
  summary : List (String × JVal)
  recommendations : List RecommendationOut
  called_llm : Bool
deriving DecidableEq, Repr

/-- Embedding of `generate_user_facing_response`.  The external narrative
call is `llm_response` (`none` models the call raising or timing out;
`some text` its returned text, `response.text or ""`), and `json_loads`
models the standard-library JSON parser used by `_parse_llm_json`. -/
def generate_user_facing_response (json_loads : String → ParsedJson)
    (llm_response : Option String) (weaknesses : List Weakness)
    (recommendations : List CourseScore)
    (test_result : Option TestResultInfo)
    (history_result : Option TestResultInfo)
    (incorrect_summary : Option IncorrectSummaryInfo) (all_correct : Bool)
    (participant_ranking : Option ℚ)
    (domain_performance :
      Option (Option DomainPerformance × Option DomainPerformance)) :
    Agent5Output :=
  if all_correct then
    { summary := congrats_summary test_result history_result
        (ranking_sentence participant_ranking)
        (progress_heading test_result history_result)
      recommendations := []
      called_llm := false }
  else
    let test_title_str :=
      let t := test_title test_result history_result
      if t = "" then "N/A" else t
    let fallback := fallback_summary weaknesses recommendations test_result
      incorrect_summary history_result (ranking_sentence participant_ranking)
      domain_performance (progress_heading test_result history_result)
      test_title_str
    let summary_json :=
      match llm_response with
      | none => fallback
      | some txt =>
        let raw_text := py_strip txt
        if raw_text = "" then fallback
        else
          let parsed := parse_llm_json json_loads raw_text
          if parsed.isEmpty then fallback else parsed
    { summary := summary_json
      recommendations := recommendations.map (fun cs =>
        { course_id := cs.course.id
          course_title := cs.course.lesson_title
          target_weakness_id := cs.weakness_id
          explanation := cs.reason })
      called_llm := true }

/-- The section keys required of the structured report object. -/
def required_section_keys : List String :=
  ["Test Title", "Current Performance", "Area to be Improved",
   "Recommended Course", "Progress Compared to Previous Test",
   "Domain Comparison"]

/-- The keys of a summary dict. -/
def dict_keys (d : List (String × JVal)) : List String := d.map Prod.fst

/-- Dict lookup in a summary object. -/
def get_key (d : List (String × JVal)) (k : String) : Option JVal :=
  (d.find? (fun p => p.1 == k)).map Prod.snd

/-- The acceptance condition of the narrative call, as the code implements
it: the call succeeded, its stripped text is non-empty, and the cleaned
text parses as a non-empty JSON object — whose fields are returned.  No
check of the required section keys is performed. -/
def llm_parsed_nonempty (json_loads : String → ParsedJson)
    (llm_response : Option String) : Option (List (String × JVal)) :=
  match llm_response with
  | none => none
  | some txt =>
    let raw_text := py_strip txt
    if raw_text = "" then none
    else
      let parsed := parse_llm_json json_loads raw_text
      if parsed.isEmpty then none else some parsed

/-! ## Pipeline driver (pipeline/run_pipeline.py) -/

/-- Conversion of the serialized current attempt record to the dict agent 5
reads (`CORE_COLS` has no `testTitle` key, so that lookup yields `None`). -/
def attempt_to_info (r : AttemptRecord) : TestResultInfo :=
  { testTitle := none
    attemptNumber := some r.attemptNumber
    totalAttempts := some r.totalAttempts
    earnedScore := some r.earnedScore
    totalScore := some r.totalScore
    status := some r.status }

/-- The history dict as agent 5 effectively sees it: because agent 1
serializes the prior attempt with `iloc[1:2].to_dict()`, every field holds
a column cell dict, which `_to_int` maps to `None` and whose `testTitle`
key is absent — all lookups yield `None` while the dict itself stays
truthy. -/
def history_dict_info : TestResultInfo := {}

/-- Result of `run_full_pipeline`.  `ran_weakness_extraction` and
`ran_course_search` instrument whether the agent-3 and agent-4 call sites
were reached. -/
structure PipelineResult where
  status : String
  weaknesses_llm : List WeaknessRaw
  course_recommendation : Option Agent4Output
  response : Option Agent5Output
  ran_weakness_extraction : Bool
  ran_course_search : Bool
deriving Repr

/-- Embedding of `run_full_pipeline`.  External stages are parameters:
`agent3_extract` is the weakness-extraction call (agent 3),
`agent4_recommend` the course-recommendation stage — `Except.error ()`
models it raising, e.g. a similarity-search failure, which the driver
catches — and `json_loads` / `llm_response` feed agent 5's narrative call.
Agent 2's history id is `none`: the column-dict produced by agent 1's
`iloc[1:2].to_dict()` never equals any `examResultId` string, so the
history aggregation input is always empty. -/
def run_full_pipeline (test_id student_id : String)
    (df_result : List AttemptRecord) (df_q : List QuestionBankRow)
    (df_a : List AnswerBankRow) (df_tq : List QuestionResultRow)
    (df_ta : List AnswerResultRow)
    (agent3_extract : List IncorrectCase → List WeaknessRaw)
    (agent4_recommend : List WeaknessRaw → Except Unit Agent4Output)
    (json_loads : String → ParsedJson) (llm_response : Option String)
    (participant_ranking : Option ℚ) : PipelineResult :=
  let agent1_out := get_student_test_history test_id student_id df_result
  match agent1_out.current_test_result with
  | none =>
    { status := "agent1_error"
      weaknesses_llm := []
      course_recommendation := none
      response := none
      ran_weakness_extraction := false
      ran_course_search := false }
  | some current =>
    let agent2_out := get_incorrect_question_cases (some current.id) none
      df_q df_a df_tq df_ta
    if agent2_out.status ≠ "ok" ∧ agent2_out.status ≠ "no_incorrect_answers"
    then
      { status := "agent2_error"
        weaknesses_llm := []
        course_recommendation := none
        response := none
        ran_weakness_extraction := false
        ran_course_search := false }
    else
      let incorrect_cases := agent2_out.incorrect_questions
      let all_correct := incorrect_cases.isEmpty
      let incorrect_summary : IncorrectSummaryInfo :=
        { total_questions_in_test :=
            some (agent2_out.total_questions_in_test : Int)
          total_incorrect_questions :=
            some (agent2_out.total_incorrect_questions : Int) }
      let domain_perf :=
        some (agent2_out.domain_performance_current,
          agent2_out.domain_performance_history)
      let history_info :=
        agent1_out.history_test_result.map (fun _ => history_dict_info)
      if all_correct then
        let result := generate_user_facing_response json_loads llm_response
          [] [] (some (attempt_to_info current)) history_info
          (some incorrect_summary) true participant_ranking domain_perf
        { status := "ok_all_correct"
          weaknesses_llm := []
          course_recommendation := some ⟨[], []⟩
          response := some result
          ran_weakness_extraction := false
          ran_course_search := false }
      else
        let weaknesses_llm := agent3_extract incorrect_cases
        if weaknesses_llm.isEmpty then
          { status := "no_weaknesses"
            weaknesses_llm := []
            course_recommendation := none
            response := none
            ran_weakness_extraction := true
            ran_course_search := false }
        else
          let course_rec : Option Agent4Output :=
            match agent4_recommend weaknesses_llm with
            | .ok out => some out
            | .error _ => none
          if (match course_rec with
              | none => true
              | some o => o.recommendations.isEmpty) then
            { status := "no_course_recommendations"
              weaknesses_llm := weaknesses_llm
              course_recommendation := course_rec
              response := none
              ran_weakness_extraction := true
              ran_course_search := true }
          else
            let o := course_rec.getD ⟨[], []⟩
            let result := generate_user_facing_response json_loads
              llm_response o.weaknesses o.recommendations
              (some (attempt_to_info current)) history_info
              (some incorrect_summary) false participant_ranking domain_perf
            { status := "ok"
              weaknesses_llm := weaknesses_llm
              course_recommendation := course_rec
              response := some result
              ran_weakness_extraction := true
              ran_course_search := true }

/-! ### Claim C7 -/

/-- Narrative text for the C7 counterexample: the JSON object
`{"foo": 1}`, which has none of the required section keys. -/
def c7_text : String := "\x7b\"foo\": 1\x7d"

/-- Models the standard-library JSON parser on the counterexample text: it
parses to the object with the single field `foo`. -/
def c7_json_loads : String → ParsedJson := fun s =>
  if s = c7_text then ParsedJson.dict [("foo", JVal.n 1)] else ParsedJson.fails

/-- A narrative parser that always fails (models `json.loads` raising on
non-JSON text). -/
def c7_fails : String → ParsedJson := fun _ => ParsedJson.fails

/-- C7 counterexample: the narrative call returns text that parses as a
JSON object without any of the required section keys, yet the composer
takes the LLM-composed path and uses the object as-is instead of the
deterministic fallback — `_parse_llm_json` checks only that the value is a
non-empty object. -/
theorem C7_counterexample :
    (generate_user_facing_response c7_json_loads (some c7_text) [] [] none
      none none false none none).summary = [("foo", JVal.n 1)] ∧
    "Test Title" ∉ dict_keys (generate_user_facing_response c7_json_loads
      (some c7_text) [] [] none none none false none none).summary ∧
    (generate_user_facing_response c7_json_loads (some c7_text) [] [] none
      none none false none none).summary ≠
      fallback_summary [] [] none none none (ranking_sentence none) none
        (progress_heading none none) "N/A" := by
  decide

/-- C7 (amended).  On the non-all-correct path the composer uses the
parsed object as-is if and only if the narrative call succeeded with
non-empty text whose cleaned form parses as a non-empty JSON object —
regardless of which keys that object has; in every other case it produces
the deterministic fallback summary, which carries all six required section
keys. -/
theorem C7_parse_gate (json_loads : String → ParsedJson)
    (llm_response : Option String) (weaknesses : List Weakness)
    (recommendations : List CourseScore)
    (test_result : Option TestResultInfo)
    (history_result : Option TestResultInfo)
    (incorrect_summary : Option IncorrectSummaryInfo)
    (participant_ranking : Option ℚ)
    (domain_performance :
      Option (Option DomainPerformance × Option DomainPerformance)) :
    ((generate_user_facing_response json_loads llm_response weaknesses
      recommendations test_result history_result incorrect_summary false
      participant_ranking domain_performance).summary =
      match llm_parsed_nonempty json_loads llm_response with
      | some fields => fields
      | none => fallback_summary weaknesses recommendations test_result
          incorrect_summary history_result
          (ranking_sentence participant_ranking) domain_performance
          (progress_heading test_result history_result)
          (if test_title test_result history_result = "" then "N/A"
           else test_title test_result history_result)) ∧
    (generate_user_facing_response json_loads llm_response weaknesses
      recommendations test_result history_result incorrect_summary false
      participant_ranking domain_performance).called_llm = true ∧
    (∀ k ∈ required_section_keys,
      k ∈ dict_keys (fallback_summary weaknesses recommendations test_result
        incorrect_summary history_result
        (ranking_sentence participant_ranking) domain_performance
        (progress_heading test_result history_result)
        (if test_title test_result history_result = "" then "N/A"
         else test_title test_result history_result))) := by
  refine ⟨?_, rfl, ?_⟩
  · cases llm_response with
    | none => rfl
    | some txt =>
      simp only [generate_user_facing_response, llm_parsed_nonempty,
        Bool.false_eq_true, if_false]
      by_cases h1 : py_strip txt = ""
      · simp [h1]
      · by_cases h2 : (parse_llm_json json_loads (py_strip txt)).isEmpty = true
        · simp [h1, h2]
        · simp [h1, h2]
  · intro k hk
    have hkeys : dict_keys (fallback_summary weaknesses recommendations
        test_result incorrect_summary history_result
        (ranking_sentence participant_ranking) domain_performance
        (progress_heading test_result history_result)
        (if test_title test_result history_result = "" then "N/A"
         else test_title test_result history_result)) =
        required_section_keys := rfl
    rw [hkeys]
    exact hk

/-- Witness for the amended C7: a failing parse at a concrete input takes
the fallback path with all section keys present. -/
theorem C7_parse_gate_witness :
    ((generate_user_facing_response c7_fails (some "junk") [] [] none none
      none false none none).summary =
      fallback_summary [] [] none none none (ranking_sentence none) none
        (progress_heading none none) "N/A") ∧
    (generate_user_facing_response c7_fails (some "junk") [] [] none none
      none false none none).called_llm = true ∧
    ("Test Title" ∈ dict_keys (fallback_summary [] [] none none none
      (ranking_sentence none) none (progress_heading none none) "N/A")) := by
  obtain ⟨h1, h2, h3⟩ := C7_parse_gate c7_fails (some "junk") [] [] none
    none none none none
  exact ⟨h1.trans (by decide), h2, h3 "Test Title" (by decide)⟩

/-! ### Claim C8 -/

/-- C8: on the all-correct path the composer returns the fixed
congratulatory template without reaching the external narrative call, with
an empty recommended-course list and an empty domain-comparison list; and
whenever agent 2 reports no incorrect questions, the pipeline skips the
weakness-extraction and course-search stages entirely and takes the
congratulatory path. -/
theorem C8_all_correct_path :
    (∀ (json_loads : String → ParsedJson) (llm_response : Option String)
      (weaknesses : List Weakness) (recommendations : List CourseScore)
      (test_result history_result : Option TestResultInfo)
      (incorrect_summary : Option IncorrectSummaryInfo)
      (participant_ranking : Option ℚ)
      (domain_performance :
        Option (Option DomainPerformance × Option DomainPerformance)),
      (generate_user_facing_response json_loads llm_response weaknesses
        recommendations test_result history_result incorrect_summary true
        participant_ranking domain_performance).called_llm = false ∧
      (generate_user_facing_response json_loads llm_response weaknesses
        recommendations test_result history_result incorrect_summary true
        participant_ranking domain_performance).recommendations = [] ∧
      (generate_user_facing_response json_loads llm_response weaknesses
        recommendations test_result history_result incorrect_summary true
        participant_ranking domain_performance).summary =
        congrats_summary test_result history_result
          (ranking_sentence participant_ranking)
          (progress_heading test_result history_result) ∧
      get_key (generate_user_facing_response json_loads llm_response
        weaknesses recommendations test_result history_result
        incorrect_summary true participant_ranking
        domain_performance).summary "Recommended Course" =
        some (JVal.lst []) ∧
      get_key (generate_user_facing_response json_loads llm_response
        weaknesses recommendations test_result history_result
        incorrect_summary true participant_ranking
        domain_performance).summary "Domain Comparison" =
        some (JVal.lst [])) ∧
    (∀ (test_id student_id : String) (df_result : List AttemptRecord)
      (df_q : List QuestionBankRow) (df_a : List AnswerBankRow)
      (df_tq : List QuestionResultRow) (df_ta : List AnswerResultRow)
      (agent3_extract : List IncorrectCase → List WeaknessRaw)
      (agent4_recommend : List WeaknessRaw → Except Unit Agent4Output)
      (json_loads : String → ParsedJson) (llm_response : Option String)
      (participant_ranking : Option ℚ) (cur : AttemptRecord),
      (get_student_test_history test_id student_id
        df_result).current_test_result = some cur →
      ((get_incorrect_question_cases (some cur.id) none df_q df_a df_tq
        df_ta).status = "ok" ∨
       (get_incorrect_question_cases (some cur.id) none df_q df_a df_tq
        df_ta).status = "no_incorrect_answers") →
      (get_incorrect_question_cases (some cur.id) none df_q df_a df_tq
        df_ta).incorrect_questions = [] →
      (run_full_pipeline test_id student_id df_result df_q df_a df_tq df_ta
        agent3_extract agent4_recommend json_loads llm_response
        participant_ranking).ran_weakness_extraction = false ∧
      (run_full_pipeline test_id student_id df_result df_q df_a df_tq df_ta
        agent3_extract agent4_recommend json_loads llm_response
        participant_ranking).ran_course_search = false ∧
      (run_full_pipeline test_id student_id df_result df_q df_a df_tq df_ta
        agent3_extract agent4_recommend json_loads llm_response
        participant_ranking).status = "ok_all_correct" ∧
      (∃ resp, (run_full_pipeline test_id student_id df_result df_q df_a
        df_tq df_ta agent3_extract agent4_recommend json_loads llm_response
        participant_ranking).response = some resp ∧
        resp.called_llm = false ∧ resp.recommendations = [])) := by
  constructor
  · intro json_loads llm_response weaknesses recommendations test_result
      history_result incorrect_summary participant_ranking domain_performance
    exact ⟨rfl, rfl, rfl, rfl, rfl⟩
  · intro test_id student_id df_result df_q df_a df_tq df_ta agent3_extract
      agent4_recommend json_loads llm_response participant_ranking cur h1 h2
      h3
    have hcond : ¬((get_incorrect_question_cases (some cur.id) none df_q
        df_a df_tq df_ta).status ≠ "ok" ∧
      (get_incorrect_question_cases (some cur.id) none df_q df_a df_tq
        df_ta).status ≠ "no_incorrect_answers") := by
      rcases h2 with h2 | h2 <;> simp [h2]
    have hempty : (get_incorrect_question_cases (some cur.id) none df_q df_a
        df_tq df_ta).incorrect_questions.isEmpty = true :=
      List.isEmpty_iff.2 h3
    simp only [run_full_pipeline, h1, hcond, if_neg, if_false,
      not_false_eq_true, hempty, if_true]
    exact ⟨trivial, trivial, trivial, ⟨_, rfl, rfl, rfl⟩⟩

/-- Attempt table for the C8 witness: one attempt `res1` for student `S`
on test `T`. -/
def exDFC8 : List AttemptRecord :=
  [⟨"res1", "T", "S", 1, 1, 0, 10, 10, "done", 100⟩]

/-- Witness for C8: on concrete all-correct data the pipeline skips
agents 3 and 4 and produces the congratulatory response without an
external narrative call. -/
theorem C8_all_correct_path_witness :
    (run_full_pipeline "T" "S" exDFC8 exQ2 exAB2 exTQ2 exTA2 (fun _ => [])
      (fun _ => Except.error ()) c7_fails none
      none).ran_weakness_extraction = false ∧
    (run_full_pipeline "T" "S" exDFC8 exQ2 exAB2 exTQ2 exTA2 (fun _ => [])
      (fun _ => Except.error ()) c7_fails none none).ran_course_search =
      false ∧
    (run_full_pipeline "T" "S" exDFC8 exQ2 exAB2 exTQ2 exTA2 (fun _ => [])
      (fun _ => Except.error ()) c7_fails none none).status =
      "ok_all_correct" ∧
    (∃ resp, (run_full_pipeline "T" "S" exDFC8 exQ2 exAB2 exTQ2 exTA2
      (fun _ => []) (fun _ => Except.error ()) c7_fails none
      none).response = some resp ∧
      resp.called_llm = false ∧ resp.recommendations = []) :=
  C8_all_correct_path.2 "T" "S" exDFC8 exQ2 exAB2 exTQ2 exTA2 (fun _ => [])
    (fun _ => Except.error ()) c7_fails none none
    ⟨"res1", "T", "S", 1, 1, 0, 10, 10, "done", 100⟩ rfl (Or.inr rfl) rfl

/-! ### Claim C9 -/

/-- C9: when the course-recommendation stage raises (e.g. the similarity
search fails) for a request with at least one extracted weakness, the
pipeline catches the exception and returns the
`no_course_recommendations` status with the extracted weaknesses still
attached, instead of propagating the failure. -/
theorem C9_similarity_failure (test_id student_id : String)
    (df_result : List AttemptRecord) (df_q : List QuestionBankRow)
    (df_a : List AnswerBankRow) (df_tq : List QuestionResultRow)
    (df_ta : List AnswerResultRow)
    (agent3_extract : List IncorrectCase → List WeaknessRaw)
    (agent4_recommend : List WeaknessRaw → Except Unit Agent4Output)
    (json_loads : String → ParsedJson) (llm_response : Option String)
    (participant_ranking : Option ℚ) (cur : AttemptRecord)
    (h1 : (get_student_test_history test_id student_id
      df_result).current_test_result = some cur)
    (h2 : (get_incorrect_question_cases (some cur.id) none df_q df_a df_tq
      df_ta).status = "ok")
    (h3 : (get_incorrect_question_cases (some cur.id) none df_q df_a df_tq
      df_ta).incorrect_questions ≠ [])
    (h4 : agent3_extract (get_incorrect_question_cases (some cur.id) none
      df_q df_a df_tq df_ta).incorrect_questions ≠ [])
    (h5 : agent4_recommend (agent3_extract (get_incorrect_question_cases
      (some cur.id) none df_q df_a df_tq
      df_ta).incorrect_questions) = Except.error ()) :
    (run_full_pipeline test_id student_id df_result df_q df_a df_tq df_ta
      agent3_extract agent4_recommend json_loads llm_response
      participant_ranking).status = "no_course_recommendations" ∧
    (run_full_pipeline test_id student_id df_result df_q df_a df_tq df_ta
      agent3_extract agent4_recommend json_loads llm_response
      participant_ranking).weaknesses_llm =
      agent3_extract (get_incorrect_question_cases (some cur.id) none df_q
        df_a df_tq df_ta).incorrect_questions ∧
    (run_full_pipeline test_id student_id df_result df_q df_a df_tq df_ta
      agent3_extract agent4_recommend json_loads llm_response
      participant_ranking).course_recommendation = none := by
  have hcond : ¬((get_incorrect_question_cases (some cur.id) none df_q df_a
      df_tq df_ta).status ≠ "ok" ∧
    (get_incorrect_question_cases (some cur.id) none df_q df_a df_tq
      df_ta).status ≠ "no_incorrect_answers") := by
    simp [h2]
  have hne : (get_incorrect_question_cases (some cur.id) none df_q df_a
      df_tq df_ta).incorrect_questions.isEmpty = false :=
    List.isEmpty_eq_false_iff_exists_mem.2 (List.exists_mem_of_ne_nil _ h3)
  have hwne : (agent3_extract (get_incorrect_question_cases (some cur.id)
      none df_q df_a df_tq df_ta).incorrect_questions).isEmpty = false :=
    List.isEmpty_eq_false_iff_exists_mem.2 (List.exists_mem_of_ne_nil _ h4)
  simp only [run_full_pipeline, h1, hcond, if_neg, not_false_eq_true, hne,
    Bool.false_eq_true, if_false, hwne, h5]
  exact ⟨rfl, rfl, rfl⟩

/-- Weakness list returned by the agent-3 stand-in of the C9 witness. -/
def exWRaw : List WeaknessRaw := [{ weakness := "weak spot" }]

/-- Attempt table for the C9 witness. -/
def exDFC9 : List AttemptRecord :=
  [⟨"res5", "T", "S", 1, 1, 0, 5, 10, "done", 100⟩]

/-- Witness for C9 at a concrete input with one incorrect question, one
extracted weakness and a raising course-recommendation stage. -/
theorem C9_similarity_failure_witness :
    (run_full_pipeline "T" "S" exDFC9 exQ5 exAB2 exTQ5 exTA5
      (fun _ => exWRaw) (fun _ => Except.error ()) c7_fails none
      none).status = "no_course_recommendations" ∧
    (run_full_pipeline "T" "S" exDFC9 exQ5 exAB2 exTQ5 exTA5
      (fun _ => exWRaw) (fun _ => Except.error ()) c7_fails none
      none).weaknesses_llm =
      (fun _ => exWRaw) (get_incorrect_question_cases (some "res5") none
        exQ5 exAB2 exTQ5 exTA5).incorrect_questions ∧
    (run_full_pipeline "T" "S" exDFC9 exQ5 exAB2 exTQ5 exTA5
      (fun _ => exWRaw) (fun _ => Except.error ()) c7_fails none
      none).course_recommendation = none :=
  C9_similarity_failure "T" "S" exDFC9 exQ5 exAB2 exTQ5 exTA5
    (fun _ => exWRaw) (fun _ => Except.error ()) c7_fails none none
    ⟨"res5", "T", "S", 1, 1, 0, 5, 10, "done", 100⟩ rfl rfl (by decide)
    (by decide) rfl
